import Mathlib

/-!
Usage-report statistics (`models/models.go`).

A shallow embedding of the statistics engine of the true-up report plugin:
the inventory types, the space-level and org-level metric functions, the two
aggregation loops `Spaces.Stats` and `Orgs.Stats`, the text renderer
`Report.String` and the tabular exporter `Report.CSV` with its store.

Modelling conventions
* Go `int` is `Int`.  The figures are instance counts, binding counts and
  megabytes, and the main definitions compute them on unbounded integers.
  The compiled program computes on the 64-bit two's-complement `int`: the
  definitions `Machine.Space.*` and `Machine.Spaces.Stats` repeat the
  space-level aggregation with `wrapInt` applied to the result of every
  operation, and `Machine_statsOf_eq_wrapped` shows that its figures are the
  unbounded figures reduced to the `int` range.  Equalities between figures
  carry over to the program through that reduction; the order properties of
  the stopped counts are stated and proved on the 64-bit definitions.
* Go slices are `List`s; `for _, x := range xs` is `List.foldl` over `xs`
  with the loop variables as accumulator.
* Go `string` is `String` (names and labels are decoded JSON text, hence
  valid UTF-8, on which the byte-wise and the character-wise substring tests
  agree); `strings.Contains` is `stringsContains` below.
* A channel is represented by the sequence of values sent on it, in sending
  order, up to the `close`.
* A run-time panic and `log.Fatal` are `Except.error`; the table of the SQLite
  store is the list of its records, and the plain `INSERT` under the unique
  index fails on a key that is already present.
-/

namespace Models

/-! ## Inventory model -/

/-- App representation (`type App struct`). -/
structure App where
  Actual : Int
  Desire : Int
  RAM : Int
deriving DecidableEq, Repr

/-- Service representation (`type Service struct`). -/
structure Service where
  Label : String
  ServicePlan : String
deriving DecidableEq, Repr

abbrev Apps := List App
abbrev Services := List Service

/-- Space (`type Space struct`). -/
structure Space where
  Name : String
  Apps : Apps
  Services : Services
deriving DecidableEq, Repr

abbrev Spaces := List Space

/-- Organization (`type Org struct`). -/
structure Org where
  Name : String
  MemoryQuota : Int
  MemoryUsage : Int
  Spaces : Spaces
deriving DecidableEq, Repr

abbrev Orgs := List Org

/-- Derived per-space figures (`type SpaceStats struct`). -/
structure SpaceStats where
  Name : String
  DeployedAppsCount : Int
  RunningAppsCount : Int
  StoppedAppsCount : Int
  DeployedAppInstancesCount : Int
  RunningAppInstancesCount : Int
  StoppedAppInstancesCount : Int
  ServicesCount : Int
  ConsumedMemory : Int
deriving DecidableEq, Repr

/-- Derived per-org figures (`type OrgStats struct`). -/
structure OrgStats where
  Name : String
  MemoryQuota : Int
  MemoryUsage : Int
  Spaces : Spaces
  DeployedAppsCount : Int
  RunningAppsCount : Int
  StoppedAppsCount : Int
  DeployedAppInstancesCount : Int
  RunningAppInstancesCount : Int
  StoppedAppInstancesCount : Int
  ServicesCount : Int
deriving DecidableEq, Repr

/-- Report (`type Report struct`). -/
structure Report where
  Orgs : Orgs
deriving DecidableEq, Repr

/-! ## Library functions used by the source -/

/-- Search for `sub` at some position of `s` (both as character sequences):
true when `sub` starts `s` or occurs in a later suffix of `s`. -/
def containsChars : List Char → List Char → Bool
  | [], sub => sub.isEmpty
  | c :: cs, sub => sub.isPrefixOf (c :: cs) || containsChars cs sub

/-- Go `strings.Contains(s, substr)`: case-sensitive substring test, true for
the empty `substr`. -/
def stringsContains (s substr : String) : Bool :=
  containsChars s.data substr.data

/-! ## Space-level metric functions -/

/-- Method `func (space *Space) ConsumedMemory() int`. -/
def Space.ConsumedMemory (space : Space) : Int :=
  space.Apps.foldl (fun consumed app => consumed + app.Actual * app.RAM) 0

/-- Method `func (space *Space) RunningAppsCount() int`. -/
def Space.RunningAppsCount (space : Space) : Int :=
  space.Apps.foldl
    (fun runningAppsCount app =>
      if app.Actual > 0 then runningAppsCount + 1 else runningAppsCount) 0

/-- Method `func (space *Space) InstancesCount() int`. -/
def Space.InstancesCount (space : Space) : Int :=
  space.Apps.foldl (fun instancesCount app => instancesCount + app.Desire) 0

/-- Method `func (space *Space) RunningInstancesCount() int`. -/
def Space.RunningInstancesCount (space : Space) : Int :=
  space.Apps.foldl
    (fun runningInstancesCount app => runningInstancesCount + app.Actual) 0

/-- Method `func (space *Space) ServicesCount() int`. -/
def Space.ServicesCount (space : Space) : Int :=
  (space.Services.length : Int)

/-- Method `func (space *Space) ServiceInstancesCount(serviceType string) int`. -/
def Space.ServiceInstancesCount (space : Space) (serviceType : String) : Int :=
  space.Services.foldl
    (fun boundedServiceInstancesCount service =>
      if stringsContains service.Label serviceType
      then boundedServiceInstancesCount + 1
      else boundedServiceInstancesCount) 0

/-! ## Stats aggregator -/

/-- Body of the loop of `Spaces.Stats`: the `SpaceStats` value sent for one
space. -/
def Spaces.statsOf (space : Space) (skipSIcount : Bool) : SpaceStats :=
  let SCSCount := space.ServiceInstancesCount "p-spring-cloud-services"
  let SCDFCount := space.ServiceInstancesCount "p-dataflow-servers"
  let lApps : Int := (space.Apps.length : Int)
  let rApps := space.RunningAppsCount
  let sApps := lApps - rApps
  let lAIs := space.InstancesCount
  let lAIs := lAIs + (SCSCount + (SCDFCount * 3))
  let rAIs := space.RunningInstancesCount
  let rAIs := rAIs + (SCSCount + (SCDFCount * 3))
  let sAIs := lAIs - rAIs
  let siCount := space.ServicesCount
  let siCount := siCount - (SCSCount + SCDFCount)
  let rAIConsumedMemory :=
    space.ConsumedMemory + (SCSCount * 1024) + (SCDFCount * 3 * 1024)
  let siCount := if skipSIcount then 0 else siCount
  { Name := space.Name
    DeployedAppsCount := lApps
    RunningAppsCount := rApps
    StoppedAppsCount := sApps
    DeployedAppInstancesCount := lAIs
    RunningAppInstancesCount := rAIs
    StoppedAppInstancesCount := sAIs
    ServicesCount := siCount
    ConsumedMemory := rAIConsumedMemory }

/-- Method `func (spaces Spaces) Stats (c chan SpaceStats, skipSIcount bool)`: the
values sent on `c`, in order, when the channel is closed. -/
def Spaces.Stats (spaces : Spaces) (skipSIcount : Bool) : List SpaceStats :=
  spaces.foldl (fun c space => c ++ [Spaces.statsOf space skipSIcount]) []

/-- Method `func (org *Org) InstancesCount() int`. -/
def Org.InstancesCount (org : Org) : Int :=
  org.Spaces.foldl
    (fun instancesCount space =>
      let instancesCount := instancesCount + space.InstancesCount
      let SCSCount := space.ServiceInstancesCount "p-spring-cloud-services"
      let SCDFCount := space.ServiceInstancesCount "p-dataflow-servers"
      instancesCount + (SCSCount + (SCDFCount * 3))) 0

/-- Method `func (org *Org) RunningAppsCount() int`. -/
def Org.RunningAppsCount (org : Org) : Int :=
  org.Spaces.foldl
    (fun instancesCount space => instancesCount + space.RunningAppsCount) 0

/-- Method `func (org *Org) RunningInstancesCount() int`. -/
def Org.RunningInstancesCount (org : Org) : Int :=
  org.Spaces.foldl
    (fun instancesCount space =>
      let instancesCount := instancesCount + space.RunningInstancesCount
      let SCSCount := space.ServiceInstancesCount "p-spring-cloud-services"
      let SCDFCount := space.ServiceInstancesCount "p-dataflow-servers"
      instancesCount + (SCSCount + (SCDFCount * 3))) 0

/-- Method `func (org *Org) AppsCount() int`. -/
def Org.AppsCount (org : Org) : Int :=
  org.Spaces.foldl
    (fun appsCount space => appsCount + (space.Apps.length : Int)) 0

/-- Method `func (org *Org) ServicesCount() int`. -/
def Org.ServicesCount (org : Org) : Int :=
  org.Spaces.foldl
    (fun servicesCount space =>
      let servicesCount := servicesCount + (space.Services.length : Int)
      let SCSCount := space.ServiceInstancesCount "p-spring-cloud-services"
      let SCDFCount := space.ServiceInstancesCount "p-dataflow-servers"
      servicesCount - (SCSCount + SCDFCount)) 0

/-- Body of the loop of `Orgs.Stats`: the `OrgStats` value sent for one org. -/
def Orgs.statsOf (org : Org) : OrgStats :=
  let lApps := org.AppsCount
  let rApps := org.RunningAppsCount
  let sApps := lApps - rApps
  let lAIs := org.InstancesCount
  let rAIs := org.RunningInstancesCount
  let sAIs := lAIs - rAIs
  { Name := org.Name
    MemoryQuota := org.MemoryQuota
    MemoryUsage := org.MemoryUsage
    Spaces := org.Spaces
    DeployedAppsCount := lApps
    RunningAppsCount := rApps
    StoppedAppsCount := sApps
    DeployedAppInstancesCount := lAIs
    RunningAppInstancesCount := rAIs
    StoppedAppInstancesCount := sAIs
    ServicesCount := org.ServicesCount }

/-- Method `func (orgs Orgs) Stats (c chan OrgStats)`: the values sent on `c`, in
order, when the channel is closed. -/
def Orgs.Stats (orgs : Orgs) : List OrgStats :=
  orgs.foldl (fun c org => c ++ [Orgs.statsOf org]) []

/-! ## Tabular exporter: the row-building loop of `Report.CSV` -/

/-- Go `strconv.Itoa`: decimal rendering, with a leading `-` for negatives. -/
def strconvItoa (i : Int) : String := toString i

/-- The `headers` slice of `Report.CSV`. -/
def Report.csvHeaders : List String :=
  ["Env", "ReportDate", "OrgName", "SpaceName", "SpaceMemoryUsed",
   "OrgMemoryQuota", "AppsDeployed", "AppsRunning", "AppInstancesConfigured",
   "AppInstancesRunning", "TotalServiceInstancesDeployed",
   "RabbitMQServiceInstanceDeployed", "RedisServiceInstanceDeployed",
   "MySQLServiceInstanceDeployed", "SpringCloudServiceInstanceDeployed",
   "SpringCloudDataFlowServerInstanceDeployed"]

/-- Loop state of `Report.CSV`: the `rows` slice and the argument lists of the
`stmt.Exec` calls issued so far. -/
structure CSVState where
  rows : List (List String)
  execs : List (List String)
deriving DecidableEq, Repr

/-- The `spaceResult` slice built for one (org, space) pair; `today` is the
reading `time.Now().Format("2006-01-02")` of the run. -/
def Report.csvRow (apiep today : String) (org : Org) (space : Space) : List String :=
  let appsDeployed : Int := (space.Apps.length : Int)
  let SCSCount := space.ServiceInstancesCount "p-spring-cloud-services"
  let SCDFCount := space.ServiceInstancesCount "p-dataflow-servers"
  let col0 := apiep
  let col1 := today
  let col2 := org.Name
  let col3 := space.Name
  let col4 := strconvItoa (space.ConsumedMemory + (SCSCount * 1024) + (SCDFCount * 3 * 1024))
  let col5 := strconvItoa org.MemoryQuota
  let col6 := strconvItoa appsDeployed
  let col7 := strconvItoa space.RunningAppsCount
  let col8 := strconvItoa space.InstancesCount
  let col9 := strconvItoa (space.RunningInstancesCount + SCSCount + (SCDFCount * 3))
  let col10 := strconvItoa (space.ServicesCount - (SCSCount + SCDFCount))
  let col11 := strconvItoa (space.ServiceInstancesCount "rabbit")
  let col12 := strconvItoa (space.ServiceInstancesCount "redis")
  let col13 := strconvItoa (space.ServiceInstancesCount "mysql")
  let col14 := strconvItoa SCSCount
  let col15 := strconvItoa (SCDFCount * 3)
  [col0, col1, col2, col3, col4, col5, col6, col7, col8, col9, col10, col11,
   col12, col13, col14, col15]

/-- One iteration of the inner loop of `Report.CSV`: `continue` for the two
excluded org names, otherwise append the row and issue `stmt.Exec` with every
column but the date. -/
def Report.csvStep (apiep today : String) (org : Org) (st : CSVState)
    (space : Space) : CSVState :=
  if org.Name == "p-spring-cloud-services" || org.Name == "p-dataflow" then st
  else
    let spaceResult := Report.csvRow apiep today org space
    { rows := st.rows ++ [spaceResult]
      execs := st.execs ++ [spaceResult.take 1 ++ spaceResult.drop 2] }

/-- The nested `for _, org := range report.Orgs { for _, space := range
org.Spaces { ... } }` of `Report.CSV`, started with `rows = [headers]`.  Every
`stmt.Exec` is taken to return without error (on an error the source calls
`log.Fatal` and the process ends); the calls are recorded in `execs`. -/
def Report.csvLoop (report : Report) (apiep today : String) : CSVState :=
  report.Orgs.foldl
    (fun st org => org.Spaces.foldl (Report.csvStep apiep today org) st)
    { rows := [Report.csvHeaders], execs := [] }

/-- The row-set `rows` of `Report.CSV` at the end of the loop. -/
def Report.csvRows (report : Report) (apiep today : String) : List (List String) :=
  (Report.csvLoop report apiep today).rows

/-! ## Control flow and library calls of the two renderers -/

/-- A `for ... range` loop whose body may end the run (a run-time panic or
`log.Fatal`): the body is applied to the elements in order and the first
failure is the result of the whole loop. -/
def rangeLoop {ε σ α : Type} (body : σ → α → Except ε σ) : σ → List α → Except ε σ
  | st, [] => Except.ok st
  | st, x :: xs =>
    match body st x with
    | Except.error e => Except.error e
    | Except.ok st1 => rangeLoop body st1 xs

/-- Go integer division `a / b` on `int`: a run-time panic for `b = 0`,
otherwise the quotient truncated toward zero. -/
def goDiv (a b : Int) : Except String Int :=
  if b = 0 then Except.error "runtime error: integer divide by zero"
  else Except.ok (a.tdiv b)

/-- Go `strings.Join(elems, sep)`. -/
def stringsJoin (elems : List String) (sep : String) : String :=
  sep.intercalate elems

/-! ## Text renderer: `Report.String` -/

/-- Local variables of `Report.String`: the `response` buffer and the five
running totals. -/
structure StringState where
  response : String
  totalApps : Int
  totalInstances : Int
  totalRunningApps : Int
  totalRunningInstances : Int
  totalServiceInstances : Int
deriving DecidableEq, Repr

/-- Body of the inner loop of `Report.String` (`for spaceState := range
chSpaceStats`): four `WriteString(fmt.Sprintf(...))` calls, `%s` printing the
string and `%d` the decimal rendering of the `int`.  The arguments of the first
call include `100 * spaceState.ConsumedMemory / orgStats.MemoryQuota`. -/
def Report.spaceStep (orgStats : OrgStats) (response : String)
    (spaceState : SpaceStats) : Except String String :=
  match goDiv (100 * spaceState.ConsumedMemory) orgStats.MemoryQuota with
  | Except.error e => Except.error e
  | Except.ok pct =>
    let response := response ++
      ("\tSpace " ++ spaceState.Name ++ " is consuming "
        ++ strconvItoa spaceState.ConsumedMemory ++ " MB memory ("
        ++ strconvItoa pct ++ "%) of org quota.\n")
    let response := response ++
      ("\t\t" ++ strconvItoa spaceState.DeployedAppsCount ++ " apps: "
        ++ strconvItoa spaceState.RunningAppsCount ++ " running "
        ++ strconvItoa spaceState.StoppedAppsCount ++ " stopped\n")
    let response := response ++
      ("\t\t" ++ strconvItoa spaceState.DeployedAppInstancesCount
        ++ " app instances: "
        ++ strconvItoa spaceState.RunningAppInstancesCount ++ " running, "
        ++ strconvItoa spaceState.StoppedAppInstancesCount ++ " stopped\n")
    let response := response ++
      ("\t\t" ++ strconvItoa spaceState.ServicesCount
        ++ " service instances of type Service Suite\n")
    Except.ok response

/-- Body of the outer loop of `Report.String` (`for orgStats := range
chOrgStats`): the org line, the inner loop over the values of
`orgStats.Spaces.Stats(chSpaceStats, orgStats.Name == "p-spring-cloud-services")`
and the five `total... +=` updates. -/
def Report.orgStep (st : StringState) (orgStats : OrgStats) :
    Except String StringState :=
  let response := st.response ++
    ("Org " ++ orgStats.Name ++ " is consuming "
      ++ strconvItoa orgStats.MemoryUsage ++ " MB of "
      ++ strconvItoa orgStats.MemoryQuota ++ " MB.\n")
  let chSpaceStats :=
    Spaces.Stats orgStats.Spaces (orgStats.Name == "p-spring-cloud-services")
  match rangeLoop (Report.spaceStep orgStats) response chSpaceStats with
  | Except.error e => Except.error e
  | Except.ok response =>
    Except.ok
      { response := response
        totalApps := st.totalApps + orgStats.DeployedAppsCount
        totalInstances := st.totalInstances + orgStats.DeployedAppInstancesCount
        totalRunningApps := st.totalRunningApps + orgStats.RunningAppsCount
        totalRunningInstances :=
          st.totalRunningInstances + orgStats.RunningAppInstancesCount
        totalServiceInstances := st.totalServiceInstances + orgStats.ServicesCount }

/-- The final `fmt.Sprintf` of `Report.String`: the summary sentence. -/
def Report.summary (totalApps orgs totalInstances totalRunningApps
    totalRunningInstances totalServiceInstances : Int) : String :=
  "You have deployed " ++ strconvItoa totalApps ++ " apps across "
    ++ strconvItoa orgs ++ " org(s), with a total of "
    ++ strconvItoa totalInstances
    ++ " app instances configured. You are currently running "
    ++ strconvItoa totalRunningApps ++ " apps with "
    ++ strconvItoa totalRunningInstances ++ " app instances and using "
    ++ strconvItoa totalServiceInstances
    ++ " service instances of type Service Suite.\n"

/-- Method `func (report *Report) String() string`; `Except.error` is the run-time
panic of the integer division. -/
def Report.String' (report : Report) : Except String String :=
  match rangeLoop Report.orgStep ⟨"", 0, 0, 0, 0, 0⟩ (Orgs.Stats report.Orgs) with
  | Except.error e => Except.error e
  | Except.ok st =>
    Except.ok (st.response ++
      Report.summary st.totalApps (report.Orgs.length : Int) st.totalInstances
        st.totalRunningApps st.totalRunningInstances st.totalServiceInstances)

/-! ## Tabular exporter with its store: `Report.CSV` -/

/-- The table `trueupreport` of `./usagereport.db`: its records, each the list
of the sixteen column values `api_ep, report_date, org_name, space_name, ...`
in column order.  The table carries the unique index `trueupreportidx` on its
first four columns. -/
abbrev Store := List (List String)

/-- The statement `INSERT INTO trueupreport VALUES (?, CURRENT_DATE, ?, ...)`
executed with the fifteen arguments `args`; `dbDate` is the store's
`CURRENT_DATE`.  A plain `INSERT` into a table with a unique index: it fails
when a record with the same `(api_ep, report_date, org_name, space_name)` is
present, and adds the record otherwise. -/
def Store.insert (tx : Store) (dbDate : String) (args : List String) :
    Except String Store :=
  let record := args.take 1 ++ [dbDate] ++ args.drop 1
  if tx.any (fun r => r.take 4 == record.take 4) then
    Except.error "UNIQUE constraint failed: trueupreport.api_ep, trueupreport.report_date, trueupreport.org_name, trueupreport.space_name"
  else Except.ok (tx ++ [record])

/-- Loop state of `Report.CSV` with the store: the `rows` slice and the
contents of the table as seen by the open transaction `tx`. -/
structure CSVRun where
  rows : List (List String)
  tx : Store
deriving DecidableEq, Repr

/-- One iteration of the inner loop of `Report.CSV`, with the effect of
`stmt.Exec`: an error of `stmt.Exec` reaches `log.Fatal(err)`, which ends the
process. -/
def Report.csvExecStep (apiep today dbDate : String) (org : Org) (st : CSVRun)
    (space : Space) : Except String CSVRun :=
  if org.Name == "p-spring-cloud-services" || org.Name == "p-dataflow" then
    Except.ok st
  else
    let spaceResult := Report.csvRow apiep today org space
    let rows := st.rows ++ [spaceResult]
    match Store.insert st.tx dbDate (spaceResult.take 1 ++ spaceResult.drop 2) with
    | Except.error e => Except.error e
    | Except.ok tx => Except.ok { rows := rows, tx := tx }

/-- The final loop of `Report.CSV`: `csv.WriteString(strings.Join(rows[i], ", "))`
followed by `csv.WriteString("\n")` for every row. -/
def Report.csvText (rows : List (List String)) : String :=
  rows.foldl (fun csv row => (csv ++ stringsJoin row ", ") ++ "\n") ""

/-- Method `func (report *Report) CSV(apiep string) string` run on the store
contents `db`: the returned string and the contents of the store after
`tx.Commit()`.  `Except.error` is the end of the process in `log.Fatal`; the
transaction is then never committed and the store keeps the contents `db`.
Opening the database, beginning the transaction and preparing the statement
are taken to succeed. -/
def Report.CSV (report : Report) (apiep today dbDate : String) (db : Store) :
    Except String (String × Store) :=
  match rangeLoop
      (fun st org => rangeLoop (Report.csvExecStep apiep today dbDate org) st org.Spaces)
      { rows := [Report.csvHeaders], tx := db } report.Orgs with
  | Except.error e => Except.error e
  | Except.ok st => Except.ok (Report.csvText st.rows, st.tx)

/-- Contents of the durable store after a run of `Report.CSV` started on the
contents `db`: the committed transaction, or `db` itself when the run ended in
`log.Fatal`. -/
def Report.storeAfterCSV (report : Report) (apiep today dbDate : String)
    (db : Store) : Store :=
  match Report.CSV report apiep today dbDate db with
  | Except.error _ => db
  | Except.ok out => out.2

/-! ## The 64-bit `int`: the aggregation of `Spaces.Stats` with wrap-around

The definitions above compute the figures on unbounded integers.  The
definitions of this section repeat the space-level metric functions and
`Spaces.Stats` with the result of every `int` operation reduced to the range of
the 64-bit two's-complement `int`, as the compiled program computes them. -/

/-- Reduction of an integer to the range `-2^63 .. 2^63 - 1` of the 64-bit
two's-complement `int`: the value an `int` operation leaves when its exact
result is `x`. -/
def wrapInt (x : Int) : Int :=
  (x + 9223372036854775808) % 18446744073709551616 - 9223372036854775808

/-- Method `func (space *Space) ConsumedMemory() int` on the 64-bit `int`. -/
def Machine.Space.ConsumedMemory (space : Space) : Int :=
  space.Apps.foldl
    (fun consumed app => wrapInt (consumed + wrapInt (app.Actual * app.RAM))) 0

/-- Method `func (space *Space) RunningAppsCount() int` on the 64-bit `int`. -/
def Machine.Space.RunningAppsCount (space : Space) : Int :=
  space.Apps.foldl
    (fun runningAppsCount app =>
      if app.Actual > 0 then wrapInt (runningAppsCount + 1) else runningAppsCount) 0

/-- Method `func (space *Space) InstancesCount() int` on the 64-bit `int`. -/
def Machine.Space.InstancesCount (space : Space) : Int :=
  space.Apps.foldl (fun instancesCount app => wrapInt (instancesCount + app.Desire)) 0

/-- Method `func (space *Space) RunningInstancesCount() int` on the 64-bit
`int`. -/
def Machine.Space.RunningInstancesCount (space : Space) : Int :=
  space.Apps.foldl
    (fun runningInstancesCount app => wrapInt (runningInstancesCount + app.Actual)) 0

/-- Method `func (space *Space) ServicesCount() int` on the 64-bit `int`. -/
def Machine.Space.ServicesCount (space : Space) : Int :=
  wrapInt (space.Services.length : Int)

/-- Method `func (space *Space) ServiceInstancesCount(serviceType string) int` on
the 64-bit `int`. -/
def Machine.Space.ServiceInstancesCount (space : Space) (serviceType : String) : Int :=
  space.Services.foldl
    (fun boundedServiceInstancesCount service =>
      if stringsContains service.Label serviceType
      then wrapInt (boundedServiceInstancesCount + 1)
      else boundedServiceInstancesCount) 0

/-- Body of the loop of `Spaces.Stats` on the 64-bit `int`. -/
def Machine.Spaces.statsOf (space : Space) (skipSIcount : Bool) : SpaceStats :=
  let SCSCount := Machine.Space.ServiceInstancesCount space "p-spring-cloud-services"
  let SCDFCount := Machine.Space.ServiceInstancesCount space "p-dataflow-servers"
  let lApps : Int := wrapInt (space.Apps.length : Int)
  let rApps := Machine.Space.RunningAppsCount space
  let sApps := wrapInt (lApps - rApps)
  let lAIs := Machine.Space.InstancesCount space
  let lAIs := wrapInt (lAIs + wrapInt (SCSCount + wrapInt (SCDFCount * 3)))
  let rAIs := Machine.Space.RunningInstancesCount space
  let rAIs := wrapInt (rAIs + wrapInt (SCSCount + wrapInt (SCDFCount * 3)))
  let sAIs := wrapInt (lAIs - rAIs)
  let siCount := Machine.Space.ServicesCount space
  let siCount := wrapInt (siCount - wrapInt (SCSCount + SCDFCount))
  let rAIConsumedMemory :=
    wrapInt (wrapInt (Machine.Space.ConsumedMemory space + wrapInt (SCSCount * 1024))
      + wrapInt (wrapInt (SCDFCount * 3) * 1024))
  let siCount := if skipSIcount then 0 else siCount
  { Name := space.Name
    DeployedAppsCount := lApps
    RunningAppsCount := rApps
    StoppedAppsCount := sApps
    DeployedAppInstancesCount := lAIs
    RunningAppInstancesCount := rAIs
    StoppedAppInstancesCount := sAIs
    ServicesCount := siCount
    ConsumedMemory := rAIConsumedMemory }

/-- Method `func (spaces Spaces) Stats (c chan SpaceStats, skipSIcount bool)` on
the 64-bit `int`: the values sent on `c`, in order, when the channel is
closed. -/
def Machine.Spaces.Stats (spaces : Spaces) (skipSIcount : Bool) : List SpaceStats :=
  spaces.foldl (fun c space => c ++ [Machine.Spaces.statsOf space skipSIcount]) []

/-! ## Reference notions used in the statements -/

/-- Number of bindings of a space whose label has `sub` as a contiguous
subsequence of characters. -/
def labelCount (sub : String) (space : Space) : Nat :=
  space.Services.countP (fun b => decide (sub.data <:+: b.Label.data))

/-- Number of apps of a space with `Actual > 0`. -/
def runningApps (space : Space) : Nat :=
  space.Apps.countP (fun a => decide (0 < a.Actual))

/-- All service bindings of an org, space after space. -/
def Org.bindings (org : Org) : List Service :=
  org.Spaces.flatMap (fun sp => sp.Services)

/-- The binding's label contains "p-spring-cloud-services". -/
def isSCS (b : Service) : Bool :=
  decide ("p-spring-cloud-services".data <:+: b.Label.data)

/-- The binding's label contains "p-dataflow-servers". -/
def isSCDF (b : Service) : Bool :=
  decide ("p-dataflow-servers".data <:+: b.Label.data)

/-- Number of bindings of the org whose label contains neither bundled
product name. -/
def Org.nonBundledCount (org : Org) : Nat :=
  org.bindings.countP (fun b => !isSCS b && !isSCDF b)

/-- Number of bindings of the org whose label contains both bundled product
names. -/
def Org.doublyBundledCount (org : Org) : Nat :=
  org.bindings.countP (fun b => isSCS b && isSCDF b)

/-- An org whose only binding has a label containing both bundled product
names. -/
def doublyBundledOrg : Org :=
  ⟨"acme", 1000, 500,
    [⟨"dev", [], [⟨"p-spring-cloud-services-p-dataflow-servers", "std"⟩]⟩]⟩

/-- An org with one plain and one bundled binding in two spaces. -/
def plainOrg : Org :=
  ⟨"acme", 1000, 500,
    [⟨"dev", [⟨1, 2, 512⟩], [⟨"p-redis", "std"⟩]⟩,
     ⟨"prod", [], [⟨"p-dataflow-servers", "std"⟩]⟩]⟩

/-- The (org, space) pairs of a report, org after org and space after space. -/
def Report.pairs (report : Report) : List (Org × Space) :=
  report.Orgs.flatMap (fun org => org.Spaces.map (fun sp => (org, sp)))

/-- The org name is one of the two names left out of the tabular export. -/
def excludedOrgName (name : String) : Bool :=
  decide (name = "p-spring-cloud-services" ∨ name = "p-dataflow")

/-- A report with an ordinary org and the two excluded orgs, each owning a
space with an app. -/
def mixedReport : Report :=
  ⟨[⟨"p-spring-cloud-services", 10, 1, [⟨"a", [⟨1, 1, 64⟩], []⟩]⟩,
    ⟨"acme", 1000, 500, [⟨"dev", [⟨1, 2, 512⟩], [⟨"p-redis", "std"⟩]⟩]⟩,
    ⟨"p-dataflow", 10, 1, [⟨"b", [⟨1, 1, 64⟩], []⟩]⟩]⟩

/-- A space with one half-started app and one bundled binding. -/
def sampleSpace : Space :=
  ⟨"dev", [⟨1, 2, 512⟩], [⟨"p-spring-cloud-services", "std"⟩]⟩

/-- The figures of `sampleSpace`. -/
def sampleStats : SpaceStats := ⟨"dev", 1, 1, 0, 3, 2, 1, 0, 1536⟩

/-- A space whose only app runs more instances than desired. -/
def overrunSpace : Space := ⟨"dev", [⟨2, 1, 512⟩], []⟩

/-- A space with no apps and one "p-spring-cloud-services" binding. -/
def scsOnlySpace : Space := ⟨"dev", [], [⟨"p-spring-cloud-services", "std"⟩]⟩

/-- The report with the single org "acme" owning `scsOnlySpace`. -/
def scsReport : Report := ⟨[⟨"acme", 1000, 500, [scsOnlySpace]⟩]⟩

/-- Concatenation of a sequence of strings, in order. -/
def concatStrings : List String → String
  | [] => ""
  | s :: ss => s ++ concatStrings ss

/-- The message of the run-time panic of an integer division by zero. -/
def divideByZero : String := "runtime error: integer divide by zero"

/-- The first three lines written for a space: memory with its percentage of
the org quota, app counts, app-instance counts. -/
def spaceHead (quota : Int) (st : SpaceStats) : String :=
  ("\tSpace " ++ st.Name ++ " is consuming " ++ strconvItoa st.ConsumedMemory
      ++ " MB memory (" ++ strconvItoa ((100 * st.ConsumedMemory).tdiv quota)
      ++ "%) of org quota.\n")
    ++ ("\t\t" ++ strconvItoa st.DeployedAppsCount ++ " apps: "
      ++ strconvItoa st.RunningAppsCount ++ " running "
      ++ strconvItoa st.StoppedAppsCount ++ " stopped\n")
    ++ ("\t\t" ++ strconvItoa st.DeployedAppInstancesCount ++ " app instances: "
      ++ strconvItoa st.RunningAppInstancesCount ++ " running, "
      ++ strconvItoa st.StoppedAppInstancesCount ++ " stopped\n")

/-- The service-instance line written for a space, reporting `n`. -/
def serviceLine (n : Int) : String :=
  "\t\t" ++ strconvItoa n ++ " service instances of type Service Suite\n"

/-- The four lines written for a space from its `SpaceStats`. -/
def spaceText (quota : Int) (st : SpaceStats) : String :=
  spaceHead quota st ++ serviceLine st.ServicesCount

/-- The line written for an org. -/
def orgLine (name : String) (usage quota : Int) : String :=
  "Org " ++ name ++ " is consuming " ++ strconvItoa usage ++ " MB of "
    ++ strconvItoa quota ++ " MB.\n"

/-- The paragraph of an org as the text renderer is claimed to write it: the
org line, then for each space its three head lines and a service-instance line
that reports 0 in the org named "p-spring-cloud-services" and
`len(Services) - SCS - SCDF` in every other org. -/
def orgParagraph (org : Org) : String :=
  orgLine org.Name org.MemoryUsage org.MemoryQuota
    ++ concatStrings (org.Spaces.map (fun sp =>
        spaceHead org.MemoryQuota (Spaces.statsOf sp false)
          ++ serviceLine
              (if org.Name = "p-spring-cloud-services" then 0
               else (sp.Services.length : Int)
                 - (labelCount "p-spring-cloud-services" sp : Int)
                 - (labelCount "p-dataflow-servers" sp : Int))))

/-- The paragraph written for one `OrgStats` value: the org line and the four
lines of every `SpaceStats` received from `Spaces.Stats`. -/
def orgStatsText (os : OrgStats) : String :=
  orgLine os.Name os.MemoryUsage os.MemoryQuota
    ++ concatStrings
        ((Spaces.Stats os.Spaces (os.Name == "p-spring-cloud-services")).map
          (spaceText os.MemoryQuota))

/-- The string is empty or ends with a newline. -/
def endsLine (s : String) : Prop := s = "" ∨ ∃ b : String, s = b ++ "\n"

/-- The scenario report: org "acme" (quota 1000, usage 500) with the space
"dev" holding one app (Actual 1, Desire 2, RAM 512) and no bindings. -/
def acmeReport : Report := ⟨[⟨"acme", 1000, 500, [⟨"dev", [⟨1, 2, 512⟩], []⟩]⟩]⟩

/-- A report whose only org has a zero quota and no space. -/
def zeroQuotaIdleReport : Report := ⟨[⟨"acme", 0, 500, []⟩]⟩

/-- A report whose only org has a zero quota and one space. -/
def zeroQuotaReport : Report := ⟨[⟨"acme", 0, 500, [⟨"dev", [⟨1, 2, 512⟩], []⟩]⟩]⟩

/-- The record stored for a data row: the row with its date cell replaced by
the store's `CURRENT_DATE`. -/
def recordOf (dbDate : String) (row : List String) : List String :=
  (row.take 1 ++ row.drop 2).take 1 ++ [dbDate] ++ (row.take 1 ++ row.drop 2).drop 1

/-- The key of a record under the unique index: its first four columns
`(api_ep, report_date, org_name, space_name)`. -/
def keyOf (record : List String) : List String := record.take 4

/-- The error of an `INSERT` that violates the unique index. -/
def uniqueFailed : String :=
  "UNIQUE constraint failed: trueupreport.api_ep, trueupreport.report_date, trueupreport.org_name, trueupreport.space_name"

/-- The effect of one data row on the loop state: the insert of its record,
then the row appended to `rows`. -/
def rowStep (dbDate : String) (st : CSVRun) (row : List String) : Except String CSVRun :=
  match Store.insert st.tx dbDate (row.take 1 ++ row.drop 2) with
  | Except.error e => Except.error e
  | Except.ok tx => Except.ok { rows := st.rows ++ [row], tx := tx }

/-- The data rows of a report: one per non-excluded (org, space) pair, in
order. -/
def Report.dataRows (report : Report) (apiep today : String) : List (List String) :=
  (report.pairs.filter (fun p => !excludedOrgName p.1.Name)).map
    (fun p => Report.csvRow apiep today p.1 p.2)

/-- The records a run of the export adds to the store. -/
def Report.newRecords (report : Report) (apiep today dbDate : String) : Store :=
  (Report.dataRows report apiep today).map (recordOf dbDate)

/-- The rendering of a row-set: the cells of each row joined by ", ", each row
on a line of its own ended by a newline. -/
def renderRows (rows : List (List String)) : String :=
  concatStrings (rows.map (fun row => stringsJoin row ", " ++ "\n"))

/-- The store after one export of `acmeReport` for environment "env" on
2020-01-01, started on the empty store. -/
def acmeStore : Store :=
  [["env", "2020-01-01", "acme", "dev", "512", "1000", "1", "1", "2", "1", "0",
    "0", "0", "0", "0", "0"]]

/-- The figures of a `SpaceStats`, each reduced to the 64-bit `int` range. -/
def SpaceStats.wrapped (st : SpaceStats) : SpaceStats :=
  { Name := st.Name
    DeployedAppsCount := wrapInt st.DeployedAppsCount
    RunningAppsCount := wrapInt st.RunningAppsCount
    StoppedAppsCount := wrapInt st.StoppedAppsCount
    DeployedAppInstancesCount := wrapInt st.DeployedAppInstancesCount
    RunningAppInstancesCount := wrapInt st.RunningAppInstancesCount
    StoppedAppInstancesCount := wrapInt st.StoppedAppInstancesCount
    ServicesCount := wrapInt st.ServicesCount
    ConsumedMemory := wrapInt st.ConsumedMemory }

/-- A space with two stopped apps whose desired instance counts add up to
`2^63`, one more than the largest `int`. -/
def overflowSpace : Space :=
  ⟨"dev", [⟨0, 9223372036854775807, 0⟩, ⟨0, 1, 0⟩], []⟩

/-! ## Loop lemmas -/

theorem foldl_add_sum {α : Type} (f : α → Int) (xs : List α) (a : Int) :
    xs.foldl (fun acc x => acc + f x) a = a + (xs.map f).sum := by
  induction xs generalizing a with
  | nil => simp
  | cons x xs ih => simp [ih, add_assoc]

theorem foldl_incr_countP {α : Type} (p : α → Bool) (xs : List α) (a : Int) :
    xs.foldl (fun acc x => if p x then acc + 1 else acc) a
      = a + (xs.countP p : Int) := by
  induction xs generalizing a with
  | nil => simp
  | cons x xs ih =>
    cases hp : p x
    · simp [ih, hp]
    · simp [ih, hp, List.countP_cons_of_pos]
      ring

theorem foldl_snoc_map {α β : Type} (f : α → β) (xs : List α) (c : List β) :
    xs.foldl (fun c x => c ++ [f x]) c = c ++ xs.map f := by
  induction xs generalizing c with
  | nil => simp
  | cons x xs ih => simp [ih]

/-! ## `strings.Contains` is the substring relation -/

theorem isPrefixOf_iff_isPrefix (sub s : List Char) :
    sub.isPrefixOf s = true ↔ sub <+: s := by
  simp

theorem containsChars_iff (s sub : List Char) :
    containsChars s sub = true ↔ sub <:+: s := by
  induction s with
  | nil => simp [containsChars, List.isEmpty_iff]
  | cons c cs ih =>
    simp only [containsChars, Bool.or_eq_true, ih, List.isPrefixOf_iff_prefix]
    exact (List.infix_cons_iff).symm

theorem stringsContains_iff (s sub : String) :
    stringsContains s sub = true ↔ sub.data <:+: s.data :=
  containsChars_iff s.data sub.data

/-! ## Closed forms of the metric functions -/

theorem ConsumedMemory_eq_sum (space : Space) :
    space.ConsumedMemory = (space.Apps.map (fun a => a.Actual * a.RAM)).sum := by
  simp [Space.ConsumedMemory, foldl_add_sum]

theorem InstancesCount_eq_sum (space : Space) :
    space.InstancesCount = (space.Apps.map (fun a => a.Desire)).sum := by
  simp [Space.InstancesCount, foldl_add_sum]

theorem RunningInstancesCount_eq_sum (space : Space) :
    space.RunningInstancesCount = (space.Apps.map (fun a => a.Actual)).sum := by
  simp [Space.RunningInstancesCount, foldl_add_sum]

theorem RunningAppsCount_eq_count (space : Space) :
    space.RunningAppsCount = (runningApps space : Int) := by
  have h := foldl_incr_countP (fun a : App => decide (a.Actual > 0)) space.Apps 0
  simp only [decide_eq_true_eq, zero_add] at h
  simpa [Space.RunningAppsCount, runningApps] using h

theorem ServiceInstancesCount_eq_count (space : Space) (sub : String) :
    space.ServiceInstancesCount sub = (labelCount sub space : Int) := by
  have h := foldl_incr_countP (fun b : Service => stringsContains b.Label sub)
    space.Services 0
  have hp : (fun b : Service => stringsContains b.Label sub)
      = (fun b : Service => decide (sub.data <:+: b.Label.data)) := by
    funext b
    rw [Bool.eq_iff_iff]
    simp [stringsContains_iff]
  rw [zero_add, hp] at h
  simpa [Space.ServiceInstancesCount, labelCount, hp] using h

theorem Spaces_Stats_eq_map (spaces : Spaces) (skip : Bool) :
    Spaces.Stats spaces skip = spaces.map (fun sp => Spaces.statsOf sp skip) := by
  simp [Spaces.Stats, foldl_snoc_map]

/-! ## Claims about `Spaces.Stats` -/

/-- C1: for every sequence of spaces and every skip flag, `Spaces.Stats` emits
exactly one `SpaceStats` per space, in input order, and the name, deployed and
running app counts, deployed and running app-instance counts and consumed
memory of each are the stated sums and counts, with SCS and SCDF the numbers of
bindings whose label contains "p-spring-cloud-services" and
"p-dataflow-servers". -/
theorem Spaces_Stats_contract (spaces : Spaces) (skip : Bool) :
    (Spaces.Stats spaces skip).length = spaces.length ∧
    (Spaces.Stats spaces skip).map
        (fun st => (st.Name, st.DeployedAppsCount, st.RunningAppsCount,
          st.DeployedAppInstancesCount, st.RunningAppInstancesCount,
          st.ConsumedMemory))
      = spaces.map (fun sp =>
          (sp.Name, (sp.Apps.length : Int), (runningApps sp : Int),
            (sp.Apps.map (fun a => a.Desire)).sum
              + (labelCount "p-spring-cloud-services" sp : Int)
              + 3 * (labelCount "p-dataflow-servers" sp : Int),
            (sp.Apps.map (fun a => a.Actual)).sum
              + (labelCount "p-spring-cloud-services" sp : Int)
              + 3 * (labelCount "p-dataflow-servers" sp : Int),
            (sp.Apps.map (fun a => a.Actual * a.RAM)).sum
              + 1024 * (labelCount "p-spring-cloud-services" sp : Int)
              + 3 * 1024 * (labelCount "p-dataflow-servers" sp : Int))) := by
  refine ⟨by simp [Spaces_Stats_eq_map], ?_⟩
  rw [Spaces_Stats_eq_map, List.map_map]
  apply List.map_congr_left
  intro sp _
  simp only [Function.comp, Spaces.statsOf, ServiceInstancesCount_eq_count,
    RunningAppsCount_eq_count, InstancesCount_eq_sum, RunningInstancesCount_eq_sum,
    ConsumedMemory_eq_sum, Prod.mk.injEq, true_and]
  refine ⟨?_, ?_, ?_⟩ <;> ring

/-- C2: every `SpaceStats` produced by `Spaces.Stats`, for either value of the
skip flag, has stopped + running = deployed, both for apps and for app
instances. -/
theorem Spaces_Stats_stopped_running (spaces : Spaces) (skip : Bool)
    (st : SpaceStats) (hst : st ∈ Spaces.Stats spaces skip) :
    st.StoppedAppsCount + st.RunningAppsCount = st.DeployedAppsCount ∧
    st.StoppedAppInstancesCount + st.RunningAppInstancesCount
      = st.DeployedAppInstancesCount := by
  rw [Spaces_Stats_eq_map, List.mem_map] at hst
  obtain ⟨sp, _, rfl⟩ := hst
  simp only [Spaces.statsOf]
  constructor <;> ring

/-- Witness of C2 on a space with one half-started app and one bundled
binding. -/
theorem Spaces_Stats_stopped_running_witness :
    sampleStats ∈ Spaces.Stats [sampleSpace] false ∧
      (sampleStats.StoppedAppsCount + sampleStats.RunningAppsCount
          = sampleStats.DeployedAppsCount ∧
        sampleStats.StoppedAppInstancesCount + sampleStats.RunningAppInstancesCount
          = sampleStats.DeployedAppInstancesCount) :=
  ⟨by decide,
   Spaces_Stats_stopped_running [sampleSpace] false sampleStats (by decide)⟩

/-- C3: with the skip flag set `Spaces.Stats` reports `ServicesCount = 0` for
every space, without it `len(Services) - SCS - SCDF`, and the two runs agree on
every other field of every `SpaceStats`. -/
theorem Spaces_Stats_skip_frame (spaces : Spaces) :
    (Spaces.Stats spaces true).map (fun st => st.ServicesCount)
      = spaces.map (fun _ => (0 : Int)) ∧
    (Spaces.Stats spaces false).map (fun st => st.ServicesCount)
      = spaces.map (fun sp => (sp.Services.length : Int)
          - (labelCount "p-spring-cloud-services" sp : Int)
          - (labelCount "p-dataflow-servers" sp : Int)) ∧
    (Spaces.Stats spaces true).map
        (fun st => (st.Name, st.DeployedAppsCount, st.RunningAppsCount,
          st.StoppedAppsCount, st.DeployedAppInstancesCount,
          st.RunningAppInstancesCount, st.StoppedAppInstancesCount,
          st.ConsumedMemory))
      = (Spaces.Stats spaces false).map
        (fun st => (st.Name, st.DeployedAppsCount, st.RunningAppsCount,
          st.StoppedAppsCount, st.DeployedAppInstancesCount,
          st.RunningAppInstancesCount, st.StoppedAppInstancesCount,
          st.ConsumedMemory)) := by
  refine ⟨?_, ?_, ?_⟩
  · rw [Spaces_Stats_eq_map, List.map_map]
    apply List.map_congr_left
    intro sp _
    simp [Spaces.statsOf]
  · rw [Spaces_Stats_eq_map, List.map_map]
    apply List.map_congr_left
    intro sp _
    simp only [Function.comp, Spaces.statsOf, Space.ServicesCount,
      ServiceInstancesCount_eq_count]
    simp only [Bool.false_eq_true, if_false]
    ring
  · rw [Spaces_Stats_eq_map, Spaces_Stats_eq_map, List.map_map, List.map_map]
    apply List.map_congr_left
    intro sp _
    simp [Spaces.statsOf]

/-- C4: a space with no apps and the single binding labelled
"p-spring-cloud-services-plan" (any space name, any plan) gets, without the
skip flag, one deployed app instance, 1024 MB consumed and a services count of
0. -/
theorem Spaces_Stats_one_scs_binding (name plan : String) :
    (Spaces.Stats [⟨name, [], [⟨"p-spring-cloud-services-plan", plan⟩]⟩] false).map
        (fun st => (st.DeployedAppInstancesCount, st.ConsumedMemory, st.ServicesCount))
      = [(1, 1024, 0)] := by
  have h1 : stringsContains "p-spring-cloud-services-plan" "p-spring-cloud-services"
      = true := by decide
  have h2 : stringsContains "p-spring-cloud-services-plan" "p-dataflow-servers"
      = false := by decide
  simp [Spaces.Stats, Spaces.statsOf, Space.ServiceInstancesCount,
    Space.InstancesCount, Space.ConsumedMemory, Space.ServicesCount, h1, h2]

/-- C5: a space with no apps and the single binding labelled
"p-dataflow-servers-x" gets three deployed app instances and 3072 MB consumed,
for either value of the skip flag. -/
theorem Spaces_Stats_one_scdf_binding (name plan : String) (skip : Bool) :
    (Spaces.Stats [⟨name, [], [⟨"p-dataflow-servers-x", plan⟩]⟩] skip).map
        (fun st => (st.DeployedAppInstancesCount, st.ConsumedMemory))
      = [(3, 3072)] := by
  have h1 : stringsContains "p-dataflow-servers-x" "p-spring-cloud-services"
      = false := by decide
  have h2 : stringsContains "p-dataflow-servers-x" "p-dataflow-servers"
      = true := by decide
  simp [Spaces.Stats, Spaces.statsOf, Space.ServiceInstancesCount,
    Space.InstancesCount, Space.ConsumedMemory, h1, h2]

/-! ## Claims about the metric functions -/

/-- C6: appending a binding `b` to a space's bindings raises
`ServiceInstancesCount(s)` by exactly 1 when the label of `b` contains `s`
(case-sensitive, contiguous) and leaves it unchanged otherwise. -/
theorem ServiceInstancesCount_append (space : Space) (s : String) (b : Service) :
    (s.data <:+: b.Label.data →
      ({ space with Services := space.Services ++ [b] } : Space).ServiceInstancesCount s
        = space.ServiceInstancesCount s + 1) ∧
    (¬ s.data <:+: b.Label.data →
      ({ space with Services := space.Services ++ [b] } : Space).ServiceInstancesCount s
        = space.ServiceInstancesCount s) := by
  constructor
  · intro h
    have hb : stringsContains b.Label s = true := (stringsContains_iff _ _).2 h
    simp [Space.ServiceInstancesCount, List.foldl_append, hb]
  · intro h
    have hb : stringsContains b.Label s = false := by
      rw [← Bool.not_eq_true, stringsContains_iff]
      exact h
    simp [Space.ServiceInstancesCount, List.foldl_append, hb]

/-- Witness of C6: adding a "p-redis" binding to `sampleSpace` raises the
"redis" count from 0 to 1 and leaves the "mysql" count at 0. -/
theorem ServiceInstancesCount_append_witness :
    (({ sampleSpace with Services := sampleSpace.Services ++ [⟨"p-redis", "std"⟩] } : Space)
        |>.ServiceInstancesCount "redis") = sampleSpace.ServiceInstancesCount "redis" + 1 ∧
    (({ sampleSpace with Services := sampleSpace.Services ++ [⟨"p-redis", "std"⟩] } : Space)
        |>.ServiceInstancesCount "mysql") = sampleSpace.ServiceInstancesCount "mysql" :=
  ⟨(ServiceInstancesCount_append sampleSpace "redis" ⟨"p-redis", "std"⟩).1
      ((stringsContains_iff "p-redis" "redis").1 (by decide)),
   (ServiceInstancesCount_append sampleSpace "mysql" ⟨"p-redis", "std"⟩).2
      (fun h => absurd ((stringsContains_iff "p-redis" "mysql").2 h) (by decide))⟩

/-- C7: a space without apps has `ConsumedMemory = 0`, `RunningAppsCount = 0`
and `InstancesCount = 0` whatever its bindings; and each metric function is a
total function to the integers, so it yields a value for every space. -/
theorem metrics_no_apps (name : String) (services : Services) :
    ((⟨name, [], services⟩ : Space).ConsumedMemory = 0 ∧
      (⟨name, [], services⟩ : Space).RunningAppsCount = 0 ∧
      (⟨name, [], services⟩ : Space).InstancesCount = 0) ∧
    ∀ (space : Space) (s : String), ∃ m r i ri sc si : Int,
      space.ConsumedMemory = m ∧ space.RunningAppsCount = r ∧
      space.InstancesCount = i ∧ space.RunningInstancesCount = ri ∧
      space.ServicesCount = sc ∧ space.ServiceInstancesCount s = si :=
  ⟨⟨rfl, rfl, rfl⟩, fun _ _ => ⟨_, _, _, _, _, _, rfl, rfl, rfl, rfl, rfl, rfl⟩⟩

/-! ## Claims about the org-level functions -/

theorem length_sub_counts {α : Type} (p q : α → Bool) (l : List α) :
    (l.length : Int) - (l.countP p : Int) - (l.countP q : Int)
      = (l.countP (fun x => !p x && !q x) : Int)
        - (l.countP (fun x => p x && q x) : Int) := by
  induction l with
  | nil => simp
  | cons x xs ih =>
    cases hp : p x <;> cases hq : q x <;>
      simp [List.countP_cons, hp, hq] <;> omega

theorem isSCS_eq (b : Service) :
    stringsContains b.Label "p-spring-cloud-services" = isSCS b := by
  rw [Bool.eq_iff_iff]
  simp [stringsContains_iff, isSCS]

theorem isSCDF_eq (b : Service) :
    stringsContains b.Label "p-dataflow-servers" = isSCDF b := by
  rw [Bool.eq_iff_iff]
  simp [stringsContains_iff, isSCDF]

theorem Org_ServicesCount_eq_sum (org : Org) :
    org.ServicesCount = (org.Spaces.map (fun sp => (sp.Services.length : Int)
        - sp.ServiceInstancesCount "p-spring-cloud-services"
        - sp.ServiceInstancesCount "p-dataflow-servers")).sum := by
  have h := foldl_add_sum (fun sp : Space => (sp.Services.length : Int)
        - sp.ServiceInstancesCount "p-spring-cloud-services"
        - sp.ServiceInstancesCount "p-dataflow-servers") org.Spaces 0
  rw [zero_add] at h
  rw [← h, Org.ServicesCount]
  congr 1
  funext acc sp
  ring

theorem space_services_split (sp : Space) :
    (sp.Services.length : Int)
        - sp.ServiceInstancesCount "p-spring-cloud-services"
        - sp.ServiceInstancesCount "p-dataflow-servers"
      = (sp.Services.countP (fun b => !isSCS b && !isSCDF b) : Int)
        - (sp.Services.countP (fun b => isSCS b && isSCDF b) : Int) := by
  rw [ServiceInstancesCount_eq_count, ServiceInstancesCount_eq_count]
  exact length_sub_counts isSCS isSCDF sp.Services

theorem spaces_services_split (spaces : Spaces) :
    (spaces.map (fun sp => (sp.Services.length : Int)
        - sp.ServiceInstancesCount "p-spring-cloud-services"
        - sp.ServiceInstancesCount "p-dataflow-servers")).sum
      = ((spaces.flatMap (fun sp => sp.Services)).countP
            (fun b => !isSCS b && !isSCDF b) : Int)
        - ((spaces.flatMap (fun sp => sp.Services)).countP
            (fun b => isSCS b && isSCDF b) : Int) := by
  induction spaces with
  | nil => simp
  | cons sp rest ih =>
    rw [List.map_cons, List.sum_cons, ih, space_services_split, List.flatMap_cons,
      List.countP_append, List.countP_append]
    push_cast
    ring

/-- C8 as stated fails: the org whose single binding is labelled
"p-spring-cloud-services-p-dataflow-servers" has no non-bundled binding, yet
`Org.ServicesCount` is -1, the binding being subtracted once per product. -/
theorem Org_ServicesCount_doubly_bundled :
    doublyBundledOrg.ServicesCount = -1 ∧
    (doublyBundledOrg.nonBundledCount : Int) = 0 ∧
    doublyBundledOrg.ServicesCount ≠ (doublyBundledOrg.nonBundledCount : Int) := by
  have h1 : doublyBundledOrg.ServicesCount = -1 := by decide
  have h2 : doublyBundledOrg.nonBundledCount = 0 := by
    simp only [Org.nonBundledCount, Org.bindings, doublyBundledOrg, List.flatMap_cons,
      List.flatMap_nil, List.append_nil, ← isSCS_eq, ← isSCDF_eq]
    decide
  refine ⟨h1, by simp [h2], ?_⟩
  rw [h1, h2]
  decide

/-- C8, amended: `Org.ServicesCount` is the sum over the org's spaces of
`len(Services) - SCS - SCDF`; this is the number of bindings whose label
contains neither bundled product name minus the number whose label contains
both, and so it is the non-bundled count for every org in which no label
contains both names. -/
theorem Org_ServicesCount_nonbundled (org : Org) :
    org.ServicesCount = (org.Spaces.map (fun sp => (sp.Services.length : Int)
        - (labelCount "p-spring-cloud-services" sp : Int)
        - (labelCount "p-dataflow-servers" sp : Int))).sum ∧
    org.ServicesCount
      = (org.nonBundledCount : Int) - (org.doublyBundledCount : Int) ∧
    (org.doublyBundledCount = 0 →
      org.ServicesCount = (org.nonBundledCount : Int)) := by
  have h : org.ServicesCount
      = (org.nonBundledCount : Int) - (org.doublyBundledCount : Int) := by
    rw [Org_ServicesCount_eq_sum, spaces_services_split]
    rfl
  refine ⟨?_, h, ?_⟩
  · rw [Org_ServicesCount_eq_sum]
    simp only [ServiceInstancesCount_eq_count]
  · intro h0
    rw [h, h0]
    simp

/-- Witness of the amended C8 on `plainOrg`: no label contains both names, one
binding is bundled and one is not, and `Org.ServicesCount` is 1. -/
theorem Org_ServicesCount_nonbundled_witness :
    plainOrg.doublyBundledCount = 0 ∧
    plainOrg.ServicesCount = (plainOrg.nonBundledCount : Int) ∧
    plainOrg.ServicesCount = 1 := by
  have h0 : plainOrg.doublyBundledCount = 0 := by
    simp only [Org.doublyBundledCount, Org.bindings, plainOrg, List.flatMap_cons,
      List.flatMap_nil, List.append_nil, ← isSCS_eq, ← isSCDF_eq]
    decide
  exact ⟨h0, (Org_ServicesCount_nonbundled plainOrg).2.2 h0, by decide⟩

/-! ## Claims about `Orgs.Stats` -/

/-- C9: `Orgs.Stats` emits exactly one `OrgStats` per org, in input order, with
name, quota, usage and spaces copied from the org, the five counts given by the
org-level metric functions and the two stopped counts given as differences. -/
theorem Orgs_Stats_contract (orgs : Orgs) :
    (Orgs.Stats orgs).length = orgs.length ∧
    Orgs.Stats orgs = orgs.map (fun org =>
      { Name := org.Name
        MemoryQuota := org.MemoryQuota
        MemoryUsage := org.MemoryUsage
        Spaces := org.Spaces
        DeployedAppsCount := org.AppsCount
        RunningAppsCount := org.RunningAppsCount
        StoppedAppsCount := org.AppsCount - org.RunningAppsCount
        DeployedAppInstancesCount := org.InstancesCount
        RunningAppInstancesCount := org.RunningInstancesCount
        StoppedAppInstancesCount := org.InstancesCount - org.RunningInstancesCount
        ServicesCount := org.ServicesCount }) := by
  have h : Orgs.Stats orgs = orgs.map Orgs.statsOf := by
    simp [Orgs.Stats, foldl_snoc_map]
  refine ⟨by simp [h], ?_⟩
  rw [h]
  rfl

/-! ## Claims about the tabular exporter -/

theorem excluded_test (name : String) :
    (name == "p-spring-cloud-services" || name == "p-dataflow") = excludedOrgName name := by
  rw [Bool.eq_iff_iff]
  simp [excludedOrgName]

theorem csv_inner_rows (apiep today : String) (org : Org) (spaces : Spaces)
    (st : CSVState) :
    (spaces.foldl (Report.csvStep apiep today org) st).rows
      = st.rows ++ (if excludedOrgName org.Name then []
          else spaces.map (Report.csvRow apiep today org)) := by
  induction spaces generalizing st with
  | nil => simp
  | cons sp rest ih =>
    rw [List.foldl_cons, ih]
    cases h : excludedOrgName org.Name <;>
      simp [Report.csvStep, excluded_test, h]

theorem csv_outer_rows (apiep today : String) (orgs : Orgs) (st : CSVState) :
    (orgs.foldl
        (fun st org => org.Spaces.foldl (Report.csvStep apiep today org) st) st).rows
      = st.rows ++ orgs.flatMap (fun org =>
          if excludedOrgName org.Name then []
          else org.Spaces.map (Report.csvRow apiep today org)) := by
  induction orgs generalizing st with
  | nil => simp
  | cons org rest ih =>
    rw [List.foldl_cons, ih, csv_inner_rows, List.flatMap_cons, List.append_assoc]

theorem pairs_rows (apiep today : String) (orgs : Orgs) :
    orgs.flatMap (fun org =>
        if excludedOrgName org.Name then []
        else org.Spaces.map (Report.csvRow apiep today org))
      = ((orgs.flatMap (fun org => org.Spaces.map (fun sp => (org, sp)))).filter
          (fun p => !excludedOrgName p.1.Name)).map
          (fun p => Report.csvRow apiep today p.1 p.2) := by
  induction orgs with
  | nil => simp
  | cons org rest ih =>
    rw [List.flatMap_cons, List.flatMap_cons, List.filter_append, List.map_append, ← ih]
    congr 1
    cases h : excludedOrgName org.Name
    · have hf : org.Spaces.filter
          ((fun p : Org × Space => !excludedOrgName p.1.Name) ∘ fun sp => (org, sp))
          = org.Spaces :=
        List.filter_eq_self.2 (by intro sp _; simp [h])
      simp [List.filter_map, hf, Function.comp]
    · simp [List.filter_map, Function.comp, h]

theorem csvRows_eq (report : Report) (apiep today : String) :
    Report.csvRows report apiep today
      = Report.csvHeaders ::
          (report.pairs.filter (fun p => !excludedOrgName p.1.Name)).map
            (fun p => Report.csvRow apiep today p.1 p.2) := by
  rw [Report.csvRows, Report.csvLoop, csv_outer_rows, pairs_rows]
  rfl

/-- C10: for every report and environment id the row-set of `Report.CSV` is
the header followed by exactly one row per (org, space) pair whose org name is
neither "p-spring-cloud-services" nor "p-dataflow", in org-then-space input
order (each row carrying the pair's org and space names in columns 2 and 3),
and no data row has one of the two excluded names in its OrgName column. -/
theorem CSV_rows_exclusion (report : Report) (apiep today : String) :
    Report.csvRows report apiep today
      = Report.csvHeaders ::
          (report.pairs.filter (fun p => !excludedOrgName p.1.Name)).map
            (fun p => Report.csvRow apiep today p.1 p.2) ∧
    (Report.csvRows report apiep today).tail.map (fun row => (row[2]?, row[3]?))
      = (report.pairs.filter (fun p => !excludedOrgName p.1.Name)).map
          (fun p => (some p.1.Name, some p.2.Name)) ∧
    ∀ row ∈ (Report.csvRows report apiep today).tail,
      row[2]? ≠ some "p-spring-cloud-services" ∧ row[2]? ≠ some "p-dataflow" := by
  refine ⟨csvRows_eq report apiep today, ?_, ?_⟩
  · rw [csvRows_eq, List.tail_cons, List.map_map]
    apply List.map_congr_left
    intro p _
    simp [Report.csvRow]
  · intro row hrow
    rw [csvRows_eq, List.tail_cons, List.mem_map] at hrow
    obtain ⟨p, hp, rfl⟩ := hrow
    have hne : excludedOrgName p.1.Name = false := by
      simpa using (List.mem_filter.1 hp).2
    have h2 : (Report.csvRow apiep today p.1 p.2)[2]? = some p.1.Name := by
      simp [Report.csvRow]
    rw [h2]
    simp only [excludedOrgName, decide_eq_false_iff_not, not_or] at hne
    exact ⟨fun h => hne.1 (Option.some.inj h), fun h => hne.2 (Option.some.inj h)⟩

/-- Witness of C10 on `mixedReport`: the two excluded orgs own spaces with
apps, and the row-set is the header and the single row of org "acme". -/
theorem CSV_rows_exclusion_witness :
    Report.csvRows mixedReport "env" "2020-01-01"
      = [Report.csvHeaders,
         ["env", "2020-01-01", "acme", "dev", "512", "1000", "1", "1", "2", "1",
          "1", "0", "1", "0", "0", "0"]] ∧
    (["env", "2020-01-01", "acme", "dev", "512", "1000", "1", "1", "2", "1",
        "1", "0", "1", "0", "0", "0"] : List String)[2]? ≠ some "p-dataflow" :=
  ⟨by decide,
   ((CSV_rows_exclusion mixedReport "env" "2020-01-01").2.2
      ["env", "2020-01-01", "acme", "dev", "512", "1000", "1", "1", "2", "1",
        "1", "0", "1", "0", "0", "0"] (by decide)).2⟩

/-- C11: every data row of `Report.CSV` has sixteen cells, and the row of a
non-excluded (org, space) pair holds, in order, the environment id, the report
date, the org name, the space name and the decimal renderings of the twelve
stated figures. -/
theorem CSV_row_cells (report : Report) (apiep today : String) :
    (Report.csvRows report apiep today).tail
      = (report.pairs.filter (fun p => !excludedOrgName p.1.Name)).map (fun p =>
          [apiep, today, p.1.Name, p.2.Name,
           strconvItoa (p.2.ConsumedMemory
             + 1024 * (labelCount "p-spring-cloud-services" p.2 : Int)
             + 3072 * (labelCount "p-dataflow-servers" p.2 : Int)),
           strconvItoa p.1.MemoryQuota,
           strconvItoa (p.2.Apps.length : Int),
           strconvItoa p.2.RunningAppsCount,
           strconvItoa p.2.InstancesCount,
           strconvItoa (p.2.RunningInstancesCount
             + (labelCount "p-spring-cloud-services" p.2 : Int)
             + 3 * (labelCount "p-dataflow-servers" p.2 : Int)),
           strconvItoa (p.2.ServicesCount
             - (labelCount "p-spring-cloud-services" p.2 : Int)
             - (labelCount "p-dataflow-servers" p.2 : Int)),
           strconvItoa (labelCount "rabbit" p.2 : Int),
           strconvItoa (labelCount "redis" p.2 : Int),
           strconvItoa (labelCount "mysql" p.2 : Int),
           strconvItoa (labelCount "p-spring-cloud-services" p.2 : Int),
           strconvItoa (3 * (labelCount "p-dataflow-servers" p.2 : Int))]) ∧
    (Report.csvRows report apiep today).tail.map List.length
      = (report.pairs.filter (fun p => !excludedOrgName p.1.Name)).map
          (fun _ => 16) := by
  rw [csvRows_eq, List.tail_cons]
  refine ⟨?_, ?_⟩
  · apply List.map_congr_left
    intro p _
    simp only [Report.csvRow, ServiceInstancesCount_eq_count]
    have e1 : p.2.ConsumedMemory + (labelCount "p-spring-cloud-services" p.2 : Int) * 1024
          + (labelCount "p-dataflow-servers" p.2 : Int) * 3 * 1024
        = p.2.ConsumedMemory + 1024 * (labelCount "p-spring-cloud-services" p.2 : Int)
          + 3072 * (labelCount "p-dataflow-servers" p.2 : Int) := by ring
    have e2 : p.2.RunningInstancesCount + (labelCount "p-spring-cloud-services" p.2 : Int)
          + (labelCount "p-dataflow-servers" p.2 : Int) * 3
        = p.2.RunningInstancesCount + (labelCount "p-spring-cloud-services" p.2 : Int)
          + 3 * (labelCount "p-dataflow-servers" p.2 : Int) := by ring
    have e3 : p.2.ServicesCount - ((labelCount "p-spring-cloud-services" p.2 : Int)
          + (labelCount "p-dataflow-servers" p.2 : Int))
        = p.2.ServicesCount - (labelCount "p-spring-cloud-services" p.2 : Int)
          - (labelCount "p-dataflow-servers" p.2 : Int) := by ring
    have e4 : (labelCount "p-dataflow-servers" p.2 : Int) * 3
        = 3 * (labelCount "p-dataflow-servers" p.2 : Int) := by ring
    rw [e1, e2, e3, e4]
  · rw [List.map_map]
    apply List.map_congr_left
    intro p _
    simp [Report.csvRow]

/-! ## Org-level figures against space-level figures -/

theorem sum_map_sub {α : Type} (f g : α → Int) (xs : List α) :
    (xs.map (fun x => f x - g x)).sum = (xs.map f).sum - (xs.map g).sum := by
  induction xs with
  | nil => simp
  | cons x xs ih =>
    simp only [List.map_cons, List.sum_cons, ih]
    ring

theorem Org_AppsCount_eq_sum (org : Org) :
    org.AppsCount = (org.Spaces.map (fun sp => (sp.Apps.length : Int))).sum := by
  simp [Org.AppsCount, foldl_add_sum]

theorem Org_RunningAppsCount_eq_sum (org : Org) :
    org.RunningAppsCount = (org.Spaces.map (fun sp => sp.RunningAppsCount)).sum := by
  simp [Org.RunningAppsCount, foldl_add_sum]

theorem Org_InstancesCount_eq_sum (org : Org) :
    org.InstancesCount = (org.Spaces.map (fun sp => sp.InstancesCount
      + (sp.ServiceInstancesCount "p-spring-cloud-services"
        + sp.ServiceInstancesCount "p-dataflow-servers" * 3))).sum := by
  have h := foldl_add_sum (fun sp : Space => sp.InstancesCount
      + (sp.ServiceInstancesCount "p-spring-cloud-services"
        + sp.ServiceInstancesCount "p-dataflow-servers" * 3)) org.Spaces 0
  rw [zero_add] at h
  rw [← h, Org.InstancesCount]
  congr 1
  funext acc sp
  ring

theorem Org_RunningInstancesCount_eq_sum (org : Org) :
    org.RunningInstancesCount = (org.Spaces.map (fun sp => sp.RunningInstancesCount
      + (sp.ServiceInstancesCount "p-spring-cloud-services"
        + sp.ServiceInstancesCount "p-dataflow-servers" * 3))).sum := by
  have h := foldl_add_sum (fun sp : Space => sp.RunningInstancesCount
      + (sp.ServiceInstancesCount "p-spring-cloud-services"
        + sp.ServiceInstancesCount "p-dataflow-servers" * 3)) org.Spaces 0
  rw [zero_add] at h
  rw [← h, Org.RunningInstancesCount]
  congr 1
  funext acc sp
  ring

theorem Orgs_Stats_eq_map (orgs : Orgs) :
    Orgs.Stats orgs = orgs.map Orgs.statsOf := by
  simp [Orgs.Stats, foldl_snoc_map]

/-- C18: for every org, each of the seven count fields of the `OrgStats`
emitted by `Orgs.Stats` is the sum of the same-named field over the
`SpaceStats` emitted by `Spaces.Stats` (skip flag off) for the org's spaces. -/
theorem Orgs_Stats_sums_Spaces_Stats (orgs : Orgs) :
    (Orgs.Stats orgs).map (fun os =>
        (os.DeployedAppsCount, os.RunningAppsCount, os.StoppedAppsCount,
          os.DeployedAppInstancesCount, os.RunningAppInstancesCount,
          os.StoppedAppInstancesCount, os.ServicesCount))
      = orgs.map (fun org =>
        (((Spaces.Stats org.Spaces false).map (fun st => st.DeployedAppsCount)).sum,
          ((Spaces.Stats org.Spaces false).map (fun st => st.RunningAppsCount)).sum,
          ((Spaces.Stats org.Spaces false).map (fun st => st.StoppedAppsCount)).sum,
          ((Spaces.Stats org.Spaces false).map
            (fun st => st.DeployedAppInstancesCount)).sum,
          ((Spaces.Stats org.Spaces false).map
            (fun st => st.RunningAppInstancesCount)).sum,
          ((Spaces.Stats org.Spaces false).map
            (fun st => st.StoppedAppInstancesCount)).sum,
          ((Spaces.Stats org.Spaces false).map (fun st => st.ServicesCount)).sum)) := by
  rw [Orgs_Stats_eq_map, List.map_map]
  apply List.map_congr_left
  intro org _
  have hmap : ∀ g : SpaceStats → Int,
      ((Spaces.Stats org.Spaces false).map g).sum
        = (org.Spaces.map (fun sp => g (Spaces.statsOf sp false))).sum := by
    intro g
    rw [Spaces_Stats_eq_map, List.map_map]
    rfl
  simp only [Function.comp, Orgs.statsOf, hmap, Spaces.statsOf, Space.ServicesCount,
    Bool.false_eq_true, if_false, Prod.mk.injEq]
  refine ⟨Org_AppsCount_eq_sum org, Org_RunningAppsCount_eq_sum org, ?_,
    Org_InstancesCount_eq_sum org, Org_RunningInstancesCount_eq_sum org, ?_, ?_⟩
  · rw [sum_map_sub, Org_AppsCount_eq_sum, Org_RunningAppsCount_eq_sum]
  · rw [sum_map_sub, Org_InstancesCount_eq_sum, Org_RunningInstancesCount_eq_sum]
  · rw [Org_ServicesCount_eq_sum]
    congr 2
    funext sp
    ring

/-! ## The 64-bit `int`: wrap-around and the unbounded figures -/

theorem wrapInt_of_inRange (x : Int) (h1 : -9223372036854775808 ≤ x)
    (h2 : x < 9223372036854775808) : wrapInt x = x := by
  unfold wrapInt
  omega

theorem wrapInt_range (x : Int) :
    -9223372036854775808 ≤ wrapInt x ∧ wrapInt x < 9223372036854775808 := by
  unfold wrapInt
  omega

theorem wrapInt_wrapInt (x : Int) : wrapInt (wrapInt x) = wrapInt x :=
  wrapInt_of_inRange _ (wrapInt_range x).1 (wrapInt_range x).2

theorem cast_wrapInt (x : Int) :
    ((wrapInt x : Int) : ZMod 18446744073709551616) = (x : ZMod 18446744073709551616) := by
  have h : wrapInt x
      = x - ((18446744073709551616 : Nat) : Int)
          * ((x + 9223372036854775808) / 18446744073709551616) := by
    unfold wrapInt
    omega
  rw [h, Int.cast_sub, Int.cast_mul, Int.cast_natCast, ZMod.natCast_self, zero_mul, sub_zero]

theorem wrapInt_congr (a b : Int)
    (h : (a : ZMod 18446744073709551616) = (b : ZMod 18446744073709551616)) :
    wrapInt a = wrapInt b := by
  have h2 := (ZMod.intCast_eq_intCast_iff' a b 18446744073709551616).1 h
  have h3 : a % 18446744073709551616 = b % 18446744073709551616 := by
    simpa using h2
  unfold wrapInt
  omega

theorem machine_fold_add {α : Type} (f : α → Int) (xs : List α) (a : Int) :
    xs.foldl (fun acc x => wrapInt (acc + f x)) (wrapInt a)
      = wrapInt (a + (xs.map f).sum) := by
  induction xs generalizing a with
  | nil => simp
  | cons x rest ih =>
    have h : wrapInt (wrapInt a + f x) = wrapInt (a + f x) := by
      apply wrapInt_congr
      simp only [Int.cast_add, cast_wrapInt]
    rw [List.foldl_cons, h, ih, List.map_cons, List.sum_cons, add_assoc]

theorem machine_fold_add_wrapped {α : Type} (f : α → Int) (xs : List α) (a : Int) :
    xs.foldl (fun acc x => wrapInt (acc + wrapInt (f x))) (wrapInt a)
      = wrapInt (a + (xs.map f).sum) := by
  induction xs generalizing a with
  | nil => simp
  | cons x rest ih =>
    have h : wrapInt (wrapInt a + wrapInt (f x)) = wrapInt (a + f x) := by
      apply wrapInt_congr
      simp only [Int.cast_add, cast_wrapInt]
    rw [List.foldl_cons, h, ih, List.map_cons, List.sum_cons, add_assoc]

theorem machine_fold_count {α : Type} (p : α → Bool) (xs : List α) (a : Int) :
    xs.foldl (fun acc x => if p x then wrapInt (acc + 1) else acc) (wrapInt a)
      = wrapInt (a + (xs.countP p : Int)) := by
  induction xs generalizing a with
  | nil => simp
  | cons x rest ih =>
    have h : wrapInt (wrapInt a + 1) = wrapInt (a + 1) := by
      apply wrapInt_congr
      simp only [Int.cast_add, cast_wrapInt]
    cases hp : p x
    · simp [ih, hp]
    · simp only [List.foldl_cons, hp, if_true, h, ih, List.countP_cons_of_pos]
      congr 1
      push_cast
      ring

theorem wrapInt_zero : wrapInt 0 = 0 := by decide

theorem Machine_InstancesCount_eq (space : Space) :
    Machine.Space.InstancesCount space = wrapInt space.InstancesCount := by
  have h := machine_fold_add (fun a : App => a.Desire) space.Apps 0
  rw [wrapInt_zero, zero_add] at h
  rw [Machine.Space.InstancesCount, h, InstancesCount_eq_sum]

theorem Machine_RunningInstancesCount_eq (space : Space) :
    Machine.Space.RunningInstancesCount space = wrapInt space.RunningInstancesCount := by
  have h := machine_fold_add (fun a : App => a.Actual) space.Apps 0
  rw [wrapInt_zero, zero_add] at h
  rw [Machine.Space.RunningInstancesCount, h, RunningInstancesCount_eq_sum]

theorem Machine_ConsumedMemory_eq (space : Space) :
    Machine.Space.ConsumedMemory space = wrapInt space.ConsumedMemory := by
  have h := machine_fold_add_wrapped (fun a : App => a.Actual * a.RAM) space.Apps 0
  rw [wrapInt_zero, zero_add] at h
  rw [Machine.Space.ConsumedMemory, h, ConsumedMemory_eq_sum]

theorem Machine_RunningAppsCount_eq (space : Space) :
    Machine.Space.RunningAppsCount space = wrapInt space.RunningAppsCount := by
  have h := machine_fold_count (fun a : App => decide (a.Actual > 0)) space.Apps 0
  simp only [decide_eq_true_eq, wrapInt_zero, zero_add] at h
  rw [Machine.Space.RunningAppsCount, h, RunningAppsCount_eq_count]
  rfl

theorem Machine_ServiceInstancesCount_eq (space : Space) (sub : String) :
    Machine.Space.ServiceInstancesCount space sub
      = wrapInt (space.ServiceInstancesCount sub) := by
  have h := machine_fold_count (fun b : Service => stringsContains b.Label sub)
    space.Services 0
  have h2 := foldl_incr_countP (fun b : Service => stringsContains b.Label sub)
    space.Services 0
  rw [wrapInt_zero] at h
  rw [Machine.Space.ServiceInstancesCount, h, Space.ServiceInstancesCount, h2]

/-- The figures `Spaces.Stats` computes on the 64-bit `int` are the figures
computed on unbounded integers, each reduced to the `int` range. -/
theorem Machine_statsOf_eq_wrapped (space : Space) (skip : Bool) :
    Machine.Spaces.statsOf space skip = (Spaces.statsOf space skip).wrapped := by
  simp only [Machine.Spaces.statsOf, Spaces.statsOf, SpaceStats.wrapped,
    Machine.Space.ServicesCount, Space.ServicesCount,
    Machine_InstancesCount_eq, Machine_RunningInstancesCount_eq,
    Machine_ConsumedMemory_eq, Machine_RunningAppsCount_eq,
    Machine_ServiceInstancesCount_eq, SpaceStats.mk.injEq, true_and]
  refine ⟨?_, ?_, ?_, ?_, ?_, ?_⟩
  · apply wrapInt_congr
    simp only [Int.cast_sub, cast_wrapInt]
  · apply wrapInt_congr
    simp only [Int.cast_add, Int.cast_mul, cast_wrapInt]
  · apply wrapInt_congr
    simp only [Int.cast_add, Int.cast_mul, cast_wrapInt]
  · apply wrapInt_congr
    simp only [Int.cast_sub, Int.cast_add, Int.cast_mul, cast_wrapInt]
  · cases skip
    · simp only [Bool.false_eq_true, if_false]
      apply wrapInt_congr
      simp only [Int.cast_sub, Int.cast_add, cast_wrapInt]
    · simp only [if_true, wrapInt_zero]
  · apply wrapInt_congr
    simp only [Int.cast_add, Int.cast_mul, cast_wrapInt]

theorem Machine_Stats_eq_map (spaces : Spaces) (skip : Bool) :
    Machine.Spaces.Stats spaces skip
      = spaces.map (fun sp => (Spaces.statsOf sp skip).wrapped) := by
  simp only [Machine.Spaces.Stats, foldl_snoc_map, List.nil_append,
    Machine_statsOf_eq_wrapped]

theorem sum_nonneg_of_le {α : Type} (f g : α → Int) (xs : List α)
    (h : ∀ x ∈ xs, f x ≤ g x) : 0 ≤ (xs.map (fun x => g x - f x)).sum := by
  induction xs with
  | nil => simp
  | cons x rest ih =>
    simp only [List.map_cons, List.sum_cons]
    have h1 := h x (List.mem_cons_self x rest)
    have h2 := ih (fun y hy => h y (List.mem_cons_of_mem x hy))
    omega

theorem Machine_Stats_getElem? (spaces : Spaces) (skip : Bool) (i : Nat) :
    (Machine.Spaces.Stats spaces skip)[i]?
      = (spaces[i]?).map (fun sp => (Spaces.statsOf sp skip).wrapped) := by
  rw [Machine_Stats_eq_map, List.getElem?_map]

/-- C19 as stated fails on the 64-bit `int`: both apps of `overflowSpace` have
`Actual = 0 <= Desire`, their desired counts add up to `2^63`, the sum wraps,
and `Spaces.Stats` reports `StoppedAppInstancesCount = -9223372036854775808`. -/
theorem Machine_Stats_stopped_overflow :
    (∀ a ∈ overflowSpace.Apps, a.Actual ≤ a.Desire) ∧
    (Machine.Spaces.Stats [overflowSpace] false).map
        (fun st => st.StoppedAppInstancesCount) = [-9223372036854775808] ∧
    (Machine.Spaces.Stats [overflowSpace] true).map
        (fun st => st.StoppedAppInstancesCount) = [-9223372036854775808] := by
  decide

/-- C19, amended: on the 64-bit `int`, every `SpaceStats` from `Spaces.Stats`
has `0 <= RunningAppsCount <= DeployedAppsCount` and `StoppedAppsCount >= 0`
whatever the apps (their number being below `2^63`, as for every slice); the
`SpaceStats` of a space all of whose apps have `Actual <= Desire` has
`StoppedAppInstancesCount >= 0` provided the total of `Desire - Actual` over
its apps is below `2^63`, and it is then that total; and there is a space
whose `SpaceStats` has a negative `StoppedAppInstancesCount`. -/
theorem Machine_Stats_stopped_signs (spaces : Spaces) (skip : Bool) :
    (∀ (i : Nat) (sp : Space) (st : SpaceStats),
      spaces[i]? = some sp → (Machine.Spaces.Stats spaces skip)[i]? = some st →
      (sp.Apps.length : Int) < 9223372036854775808 →
      0 ≤ st.RunningAppsCount ∧ st.RunningAppsCount ≤ st.DeployedAppsCount ∧
        0 ≤ st.StoppedAppsCount) ∧
    (∀ (i : Nat) (sp : Space) (st : SpaceStats),
      spaces[i]? = some sp → (Machine.Spaces.Stats spaces skip)[i]? = some st →
      (∀ a ∈ sp.Apps, a.Actual ≤ a.Desire) →
      (sp.Apps.map (fun a => a.Desire - a.Actual)).sum < 9223372036854775808 →
      0 ≤ st.StoppedAppInstancesCount ∧
        st.StoppedAppInstancesCount = (sp.Apps.map (fun a => a.Desire - a.Actual)).sum) ∧
    (∃ (sp : Space) (st : SpaceStats),
      Machine.Spaces.Stats [sp] skip = [st] ∧ st.StoppedAppInstancesCount < 0) := by
  refine ⟨?_, ?_, ?_⟩
  · intro i sp st hsp hst hlen
    rw [Machine_Stats_getElem?, hsp] at hst
    simp only [Option.map_some', Option.some.injEq] at hst
    subst hst
    have hle : runningApps sp ≤ sp.Apps.length := List.countP_le_length _
    have hr : wrapInt (runningApps sp : Int) = (runningApps sp : Int) :=
      wrapInt_of_inRange _ (by omega) (by omega)
    have hl : wrapInt (sp.Apps.length : Int) = (sp.Apps.length : Int) :=
      wrapInt_of_inRange _ (by omega) (by omega)
    have hs : wrapInt ((sp.Apps.length : Int) - (runningApps sp : Int))
        = (sp.Apps.length : Int) - (runningApps sp : Int) :=
      wrapInt_of_inRange _ (by omega) (by omega)
    simp only [SpaceStats.wrapped, Spaces.statsOf, RunningAppsCount_eq_count, hr, hl, hs]
    omega
  · intro i sp st hsp hst hle hsum
    rw [Machine_Stats_getElem?, hsp] at hst
    simp only [Option.map_some', Option.some.injEq] at hst
    subst hst
    have h0 : 0 ≤ (sp.Apps.map (fun a => a.Desire - a.Actual)).sum :=
      sum_nonneg_of_le (fun a : App => a.Actual) (fun a : App => a.Desire) sp.Apps hle
    have hd : (Spaces.statsOf sp skip).StoppedAppInstancesCount
        = (sp.Apps.map (fun a => a.Desire - a.Actual)).sum := by
      simp only [Spaces.statsOf, InstancesCount_eq_sum, RunningInstancesCount_eq_sum,
        sum_map_sub]
      ring
    have hw : wrapInt (sp.Apps.map (fun a => a.Desire - a.Actual)).sum
        = (sp.Apps.map (fun a => a.Desire - a.Actual)).sum :=
      wrapInt_of_inRange _ (by omega) hsum
    have hst : ((Spaces.statsOf sp skip).wrapped).StoppedAppInstancesCount
        = (sp.Apps.map (fun a => a.Desire - a.Actual)).sum := by
      rw [SpaceStats.wrapped, hd, hw]
    rw [hst]
    exact ⟨h0, rfl⟩
  · refine ⟨overrunSpace, Machine.Spaces.statsOf overrunSpace skip, ?_, ?_⟩
    · simp [Machine.Spaces.Stats]
    · cases skip <;> decide

/-- Witness of the amended C19 on `sampleSpace`, whose single app has
`Actual = 1 <= Desire = 2`: the `SpaceStats` emitted for it is `sampleStats`,
with one stopped app instance and no stopped app. -/
theorem Machine_Stats_stopped_signs_witness :
    (Machine.Spaces.Stats [sampleSpace] false)[0]? = some sampleStats ∧
    (0 ≤ sampleStats.RunningAppsCount ∧
        sampleStats.RunningAppsCount ≤ sampleStats.DeployedAppsCount ∧
        0 ≤ sampleStats.StoppedAppsCount) ∧
    (0 ≤ sampleStats.StoppedAppInstancesCount ∧
      sampleStats.StoppedAppInstancesCount
        = (sampleSpace.Apps.map (fun a => a.Desire - a.Actual)).sum) :=
  ⟨by decide,
   (Machine_Stats_stopped_signs [sampleSpace] false).1 0 sampleSpace sampleStats
      (by decide) (by decide) (by decide),
   (Machine_Stats_stopped_signs [sampleSpace] false).2.1 0 sampleSpace sampleStats
      (by decide) (by decide) (by decide) (by decide)⟩

/-! ## Tabular rows against `SpaceStats` -/

/-- C20: the data row of every non-excluded (org, space) pair agrees with the
`SpaceStats` that `Spaces.Stats` (skip flag off) computes for the space on
SpaceMemoryUsed, AppsDeployed, AppsRunning, AppInstancesRunning and
TotalServiceInstancesDeployed, while AppInstancesConfigured is
`DeployedAppInstancesCount - SCS - 3*SCDF`; for the space with no apps and one
"p-spring-cloud-services" binding the row has AppInstancesConfigured 0 and
AppInstancesRunning 1. -/
theorem CSV_row_vs_SpaceStats (report : Report) (apiep today : String) :
    (Report.csvRows report apiep today).tail.map
        (fun row => (row[4]?, row[6]?, row[7]?, row[9]?, row[10]?, row[8]?))
      = (report.pairs.filter (fun p => !excludedOrgName p.1.Name)).flatMap (fun p =>
          (Spaces.Stats [p.2] false).map (fun st =>
            (some (strconvItoa st.ConsumedMemory),
             some (strconvItoa st.DeployedAppsCount),
             some (strconvItoa st.RunningAppsCount),
             some (strconvItoa st.RunningAppInstancesCount),
             some (strconvItoa st.ServicesCount),
             some (strconvItoa (st.DeployedAppInstancesCount
               - (labelCount "p-spring-cloud-services" p.2 : Int)
               - 3 * (labelCount "p-dataflow-servers" p.2 : Int)))))) ∧
    (Report.csvRows scsReport apiep today).tail.map (fun row => (row[8]?, row[9]?))
      = [(some "0", some "1")] := by
  refine ⟨?_, ?_⟩
  · rw [csvRows_eq, List.tail_cons, List.map_map]
    have hflat : ∀ (l : List (Org × Space)) (f : Org × Space → Option String × Option String
        × Option String × Option String × Option String × Option String),
        l.flatMap (fun p => [f p]) = l.map f := by
      intro l f
      induction l with
      | nil => rfl
      | cons x xs ih => simp [List.flatMap_cons, ih]
    simp only [Spaces.Stats, List.foldl_cons, List.foldl_nil, List.nil_append,
      List.map_cons, List.map_nil, hflat]
    apply List.map_congr_left
    intro p _
    simp only [Function.comp, Report.csvRow, Spaces.statsOf, Space.ServicesCount,
      ServiceInstancesCount_eq_count, Bool.false_eq_true, if_false]
    simp only [List.getElem?_cons_succ, List.getElem?_cons_zero, Prod.mk.injEq,
      Option.some.injEq, true_and]
    refine ⟨?_, ?_⟩ <;> congr 1 <;> ring
  · have h1 : scsOnlySpace.InstancesCount = 0 := by decide
    have h2 : scsOnlySpace.RunningInstancesCount = 0 := by decide
    have h3 : scsOnlySpace.ServiceInstancesCount "p-spring-cloud-services" = 1 := by decide
    have h4 : scsOnlySpace.ServiceInstancesCount "p-dataflow-servers" = 0 := by decide
    have hx : excludedOrgName "acme" = false := by decide
    rw [csvRows_eq, List.tail_cons]
    simp only [Report.pairs, scsReport, List.flatMap_cons, List.flatMap_nil,
      List.map_cons, List.map_nil, List.append_nil, List.filter_cons, hx,
      Bool.not_false, if_true, List.filter_nil, Report.csvRow, h1, h2, h3, h4,
      List.getElem?_cons_succ, List.getElem?_cons_zero]
    decide

/-! ## The text renderer -/

theorem goDiv_of_ne (a b : Int) (h : b ≠ 0) : goDiv a b = Except.ok (a.tdiv b) := by
  simp [goDiv, h]

theorem goDiv_zero (a : Int) : goDiv a 0 = Except.error divideByZero := by
  simp [goDiv, divideByZero]

theorem spaceStep_of_ne (os : OrgStats) (resp : String) (st : SpaceStats)
    (h : os.MemoryQuota ≠ 0) :
    Report.spaceStep os resp st = Except.ok (resp ++ spaceText os.MemoryQuota st) := by
  simp only [Report.spaceStep, goDiv_of_ne _ _ h, spaceText, spaceHead, serviceLine,
    String.append_assoc]

theorem spaceStep_of_zero (os : OrgStats) (resp : String) (st : SpaceStats)
    (h : os.MemoryQuota = 0) :
    Report.spaceStep os resp st = Except.error divideByZero := by
  simp only [Report.spaceStep, h, goDiv_zero]

theorem spaceLoop_of_ne (os : OrgStats) (h : os.MemoryQuota ≠ 0)
    (sts : List SpaceStats) (resp : String) :
    rangeLoop (Report.spaceStep os) resp sts
      = Except.ok (resp ++ concatStrings (sts.map (spaceText os.MemoryQuota))) := by
  induction sts generalizing resp with
  | nil => simp [rangeLoop, concatStrings]
  | cons st rest ih =>
    simp only [rangeLoop, spaceStep_of_ne os resp st h, ih, List.map_cons,
      concatStrings, String.append_assoc]

theorem spaceLoop_of_zero (os : OrgStats) (h : os.MemoryQuota = 0)
    (sts : List SpaceStats) (hne : sts ≠ []) (resp : String) :
    rangeLoop (Report.spaceStep os) resp sts = Except.error divideByZero := by
  cases sts with
  | nil => exact absurd rfl hne
  | cons st rest => simp only [rangeLoop, spaceStep_of_zero os resp st h]

theorem orgStep_of_ok (st : StringState) (os : OrgStats)
    (h : os.MemoryQuota = 0 → os.Spaces = []) :
    Report.orgStep st os = Except.ok
      { response := st.response ++ orgStatsText os
        totalApps := st.totalApps + os.DeployedAppsCount
        totalInstances := st.totalInstances + os.DeployedAppInstancesCount
        totalRunningApps := st.totalRunningApps + os.RunningAppsCount
        totalRunningInstances := st.totalRunningInstances + os.RunningAppInstancesCount
        totalServiceInstances := st.totalServiceInstances + os.ServicesCount } := by
  by_cases hq : os.MemoryQuota = 0
  · have hs : os.Spaces = [] := h hq
    simp only [Report.orgStep, orgStatsText, orgLine, hs, Spaces.Stats, List.foldl_nil,
      rangeLoop, List.map_nil, concatStrings, String.append_empty, String.append_assoc]
  · simp only [Report.orgStep, orgStatsText, orgLine, spaceLoop_of_ne os hq,
      String.append_assoc]

theorem orgStep_of_zero (st : StringState) (os : OrgStats)
    (hq : os.MemoryQuota = 0) (hs : os.Spaces ≠ []) :
    Report.orgStep st os = Except.error divideByZero := by
  have hne : Spaces.Stats os.Spaces (os.Name == "p-spring-cloud-services") ≠ [] := by
    rw [Spaces_Stats_eq_map]
    simpa using hs
  simp only [Report.orgStep, spaceLoop_of_zero os hq _ hne]

theorem orgLoop_of_ok (oss : List OrgStats) (st : StringState)
    (h : ∀ os ∈ oss, os.MemoryQuota = 0 → os.Spaces = []) :
    rangeLoop Report.orgStep st oss = Except.ok
      { response := st.response ++ concatStrings (oss.map orgStatsText)
        totalApps := st.totalApps + (oss.map (fun os => os.DeployedAppsCount)).sum
        totalInstances :=
          st.totalInstances + (oss.map (fun os => os.DeployedAppInstancesCount)).sum
        totalRunningApps :=
          st.totalRunningApps + (oss.map (fun os => os.RunningAppsCount)).sum
        totalRunningInstances :=
          st.totalRunningInstances
            + (oss.map (fun os => os.RunningAppInstancesCount)).sum
        totalServiceInstances :=
          st.totalServiceInstances + (oss.map (fun os => os.ServicesCount)).sum } := by
  induction oss generalizing st with
  | nil => simp [rangeLoop, concatStrings]
  | cons os rest ih =>
    have h1 := orgStep_of_ok st os (h os (List.mem_cons_self os rest))
    have h2 := fun st1 => ih st1 (fun o ho => h o (List.mem_cons_of_mem os ho))
    simp only [rangeLoop, h1, h2, List.map_cons, List.sum_cons, concatStrings,
      String.append_assoc, add_assoc]

theorem orgLoop_of_zero (oss : List OrgStats) (st : StringState)
    (h : ∃ os ∈ oss, os.MemoryQuota = 0 ∧ os.Spaces ≠ []) :
    rangeLoop Report.orgStep st oss = Except.error divideByZero := by
  induction oss generalizing st with
  | nil =>
    obtain ⟨os, hos, _⟩ := h
    exact absurd hos (List.not_mem_nil os)
  | cons os rest ih =>
    by_cases hbad : os.MemoryQuota = 0 ∧ os.Spaces ≠ []
    · simp only [rangeLoop, orgStep_of_zero st os hbad.1 hbad.2]
    · have hok : os.MemoryQuota = 0 → os.Spaces = [] := by
        intro hq
        by_contra hs
        exact hbad ⟨hq, hs⟩
      have hrest : ∃ o ∈ rest, o.MemoryQuota = 0 ∧ o.Spaces ≠ [] := by
        obtain ⟨o, ho, hb⟩ := h
        rcases List.mem_cons.1 ho with rfl | ho
        · exact absurd hb hbad
        · exact ⟨o, ho, hb⟩
      simp only [rangeLoop, orgStep_of_ok st os hok, ih _ hrest]

theorem spaceText_statsOf (org : Org) (sp : Space) :
    spaceText org.MemoryQuota
        (Spaces.statsOf sp (org.Name == "p-spring-cloud-services"))
      = spaceHead org.MemoryQuota (Spaces.statsOf sp false)
          ++ serviceLine
              (if org.Name = "p-spring-cloud-services" then 0
               else (sp.Services.length : Int)
                 - (labelCount "p-spring-cloud-services" sp : Int)
                 - (labelCount "p-dataflow-servers" sp : Int)) := by
  have hhead : spaceHead org.MemoryQuota
        (Spaces.statsOf sp (org.Name == "p-spring-cloud-services"))
      = spaceHead org.MemoryQuota (Spaces.statsOf sp false) := by
    simp only [spaceHead, Spaces.statsOf]
  have hcount : (Spaces.statsOf sp (org.Name == "p-spring-cloud-services")).ServicesCount
      = (if org.Name = "p-spring-cloud-services" then 0
         else (sp.Services.length : Int)
           - (labelCount "p-spring-cloud-services" sp : Int)
           - (labelCount "p-dataflow-servers" sp : Int)) := by
    simp only [Spaces.statsOf, Space.ServicesCount, ServiceInstancesCount_eq_count,
      beq_iff_eq]
    split
    · rfl
    · ring
  rw [spaceText, hhead, hcount]

theorem orgStatsText_statsOf (org : Org) :
    orgStatsText (Orgs.statsOf org) = orgParagraph org := by
  simp only [orgStatsText, orgParagraph, Orgs.statsOf, Spaces_Stats_eq_map, List.map_map]
  congr 2
  apply List.map_congr_left
  intro sp _
  exact spaceText_statsOf org sp

theorem String_of_ok (report : Report)
    (h : ∀ org ∈ report.Orgs, org.MemoryQuota = 0 → org.Spaces = []) :
    Report.String' report = Except.ok
      (concatStrings (report.Orgs.map orgParagraph)
        ++ Report.summary (report.Orgs.map (fun org => org.AppsCount)).sum
            (report.Orgs.length : Int)
            (report.Orgs.map (fun org => org.InstancesCount)).sum
            (report.Orgs.map (fun org => org.RunningAppsCount)).sum
            (report.Orgs.map (fun org => org.RunningInstancesCount)).sum
            (report.Orgs.map (fun org => org.ServicesCount)).sum) := by
  have hs : ∀ os ∈ Orgs.Stats report.Orgs, os.MemoryQuota = 0 → os.Spaces = [] := by
    intro os hos
    rw [Orgs_Stats_eq_map, List.mem_map] at hos
    obtain ⟨org, horg, rfl⟩ := hos
    exact h org horg
  have htext : (Orgs.Stats report.Orgs).map orgStatsText
      = report.Orgs.map orgParagraph := by
    rw [Orgs_Stats_eq_map, List.map_map]
    apply List.map_congr_left
    intro org _
    exact orgStatsText_statsOf org
  simp only [Report.String', orgLoop_of_ok _ _ hs, htext, String.empty_append, zero_add]
  simp only [Orgs_Stats_eq_map, List.map_map]
  rfl

theorem String_of_zero (report : Report)
    (h : ∃ org ∈ report.Orgs, org.MemoryQuota = 0 ∧ org.Spaces ≠ []) :
    Report.String' report = Except.error divideByZero := by
  have hs : ∃ os ∈ Orgs.Stats report.Orgs, os.MemoryQuota = 0 ∧ os.Spaces ≠ [] := by
    obtain ⟨org, horg, hb⟩ := h
    refine ⟨Orgs.statsOf org, ?_, hb⟩
    rw [Orgs_Stats_eq_map]
    exact List.mem_map_of_mem _ horg
  simp only [Report.String', orgLoop_of_zero _ _ hs]

theorem endsLine_append (a b : String) (ha : endsLine a) (hb : endsLine b) :
    endsLine (a ++ b) := by
  rcases hb with hb | ⟨c, hc⟩
  · rw [hb, String.append_empty]
    exact ha
  · exact Or.inr ⟨a ++ c, by rw [hc, String.append_assoc]⟩

theorem endsLine_concat (l : List String) (h : ∀ s ∈ l, endsLine s) :
    endsLine (concatStrings l) := by
  induction l with
  | nil => exact Or.inl rfl
  | cons s rest ih =>
    exact endsLine_append s (concatStrings rest) (h s (List.mem_cons_self s rest))
      (ih (fun t ht => h t (List.mem_cons_of_mem s ht)))

theorem endsLine_orgLine (name : String) (usage quota : Int) :
    endsLine (orgLine name usage quota) :=
  Or.inr ⟨"Org " ++ name ++ " is consuming " ++ strconvItoa usage ++ " MB of "
    ++ strconvItoa quota ++ " MB.", by
      simp only [orgLine, String.append_assoc]
      rfl⟩

theorem serviceLine_eq (n : Int) :
    serviceLine n
      = ("\t\t" ++ strconvItoa n ++ " service instances of type Service Suite") ++ "\n" := by
  simp only [serviceLine, String.append_assoc]
  rfl

theorem endsLine_orgParagraph (org : Org) : endsLine (orgParagraph org) := by
  refine endsLine_append _ _ (endsLine_orgLine _ _ _) (endsLine_concat _ ?_)
  intro s hs
  obtain ⟨sp, _, rfl⟩ := List.mem_map.1 hs
  refine Or.inr ⟨spaceHead org.MemoryQuota (Spaces.statsOf sp false)
    ++ ("\t\t" ++ strconvItoa
        (if org.Name = "p-spring-cloud-services" then 0
         else (sp.Services.length : Int)
           - (labelCount "p-spring-cloud-services" sp : Int)
           - (labelCount "p-dataflow-servers" sp : Int))
      ++ " service instances of type Service Suite"), ?_⟩
  rw [serviceLine_eq]
  simp only [String.append_assoc]

/-- C12 as stated fails: the only org of `zeroQuotaIdleReport` has
`MemoryQuota = 0`, and `Report.String` returns its text, since an org without
spaces never reaches the division. -/
theorem String_zero_quota_without_space :
    (∃ org ∈ zeroQuotaIdleReport.Orgs, org.MemoryQuota = 0) ∧
    Report.String' zeroQuotaIdleReport = Except.ok
      ("Org acme is consuming 500 MB of 0 MB.\n"
        ++ "You have deployed 0 apps across 1 org(s), with a total of 0 app instances configured. You are currently running 0 apps with 0 app instances and using 0 service instances of type Service Suite.\n") :=
  ⟨⟨⟨"acme", 0, 500, []⟩, by decide, rfl⟩, by rfl⟩

/-- C12, amended: `Report.String` fails with the division-by-zero panic when
some org with `MemoryQuota = 0` owns at least one space, and it returns a
string for every other report, in particular for every report whose org quotas
are all non-zero. -/
theorem String_fails_on_zero_quota (report : Report) :
    ((∃ org ∈ report.Orgs, org.MemoryQuota = 0 ∧ org.Spaces ≠ []) →
      Report.String' report = Except.error "runtime error: integer divide by zero") ∧
    ((∀ org ∈ report.Orgs, org.MemoryQuota = 0 → org.Spaces = []) →
      ∃ text, Report.String' report = Except.ok text) ∧
    ((∀ org ∈ report.Orgs, org.MemoryQuota ≠ 0) →
      ∃ text, Report.String' report = Except.ok text) :=
  ⟨fun h => String_of_zero report h,
   fun h => ⟨_, String_of_ok report h⟩,
   fun h => ⟨_, String_of_ok report (fun org horg hq => absurd hq (h org horg))⟩⟩

/-- Witness of the amended C12: `zeroQuotaReport` (zero quota, one space) fails
with the panic, and `acmeReport` (quota 1000) returns a string. -/
theorem String_fails_on_zero_quota_witness :
    Report.String' zeroQuotaReport
        = Except.error "runtime error: integer divide by zero" ∧
    (∃ text, Report.String' acmeReport = Except.ok text) ∧
    (∃ text, Report.String' zeroQuotaIdleReport = Except.ok text) :=
  ⟨(String_fails_on_zero_quota zeroQuotaReport).1
      ⟨⟨"acme", 0, 500, [⟨"dev", [⟨1, 2, 512⟩], []⟩]⟩, by decide, rfl, by decide⟩,
   (String_fails_on_zero_quota acmeReport).2.2 (by decide),
   (String_fails_on_zero_quota zeroQuotaIdleReport).2.1 (by decide)⟩

/-- C13: whenever `Report.String` returns, its text is the sequence of the org
paragraphs followed by the summary, and in each paragraph the service-instance
line of every space reports 0 if the org is named "p-spring-cloud-services" and
`len(Services) - SCS - SCDF` otherwise. -/
theorem String_service_lines (report : Report)
    (h : ∀ org ∈ report.Orgs, org.MemoryQuota = 0 → org.Spaces = []) :
    ∃ summary : String,
      Report.String' report = Except.ok
        (concatStrings (report.Orgs.map (fun org =>
            orgLine org.Name org.MemoryUsage org.MemoryQuota
              ++ concatStrings (org.Spaces.map (fun sp =>
                  spaceHead org.MemoryQuota (Spaces.statsOf sp false)
                    ++ serviceLine
                        (if org.Name = "p-spring-cloud-services" then 0
                         else (sp.Services.length : Int)
                           - (labelCount "p-spring-cloud-services" sp : Int)
                           - (labelCount "p-dataflow-servers" sp : Int))))))
          ++ summary) :=
  ⟨_, String_of_ok report h⟩

/-- Witness of C13 on `mixedReport`, which holds an org named
"p-spring-cloud-services" and two orgs with other names, all with non-zero
quota. -/
theorem String_service_lines_witness :
    (∀ org ∈ mixedReport.Orgs, org.MemoryQuota = 0 → org.Spaces = []) ∧
    ∃ summary : String,
      Report.String' mixedReport = Except.ok
        (concatStrings (mixedReport.Orgs.map (fun org =>
            orgLine org.Name org.MemoryUsage org.MemoryQuota
              ++ concatStrings (org.Spaces.map (fun sp =>
                  spaceHead org.MemoryQuota (Spaces.statsOf sp false)
                    ++ serviceLine
                        (if org.Name = "p-spring-cloud-services" then 0
                         else (sp.Services.length : Int)
                           - (labelCount "p-spring-cloud-services" sp : Int)
                           - (labelCount "p-dataflow-servers" sp : Int))))))
          ++ summary) :=
  ⟨by decide, String_service_lines mixedReport (by decide)⟩

set_option maxRecDepth 100000 in
/-- C14: for the scenario report (org "acme", quota 1000, usage 500, space
"dev" with one app of Desire 2, Actual 1, RAM 512 and no bindings)
`Spaces.Stats` yields the stated `SpaceStats`, and the second line of the text
of `Report.String` is "\tSpace dev is consuming 512 MB memory (51%) of org
quota.". -/
theorem String_acme_scenario :
    (∀ skip : Bool, Spaces.Stats [⟨"dev", [⟨1, 2, 512⟩], []⟩] skip
      = [{ Name := "dev", DeployedAppsCount := 1, RunningAppsCount := 1,
           StoppedAppsCount := 0, DeployedAppInstancesCount := 2,
           RunningAppInstancesCount := 1, StoppedAppInstancesCount := 1,
           ServicesCount := 0, ConsumedMemory := 512 }]) ∧
    Report.String' acmeReport = Except.ok
      ("Org acme is consuming 500 MB of 1000 MB.\n"
        ++ "\tSpace dev is consuming 512 MB memory (51%) of org quota.\n"
        ++ "\t\t1 apps: 1 running 0 stopped\n"
        ++ "\t\t2 app instances: 1 running, 1 stopped\n"
        ++ "\t\t0 service instances of type Service Suite\n"
        ++ "You have deployed 1 apps across 1 org(s), with a total of 2 app instances configured. You are currently running 1 apps with 1 app instances and using 0 service instances of type Service Suite.\n") ∧
    (100 * 512 : Int).tdiv 1000 = 51 :=
  ⟨by decide, by rfl, by decide⟩

/-- C15: for every report whose org quotas are all non-zero, the text of
`Report.String` is a body that is empty or ends with a newline, followed by the
summary sentence carrying, in order, the sum of `Org.AppsCount`, the number of
orgs and the sums of `Org.InstancesCount`, `Org.RunningAppsCount`,
`Org.RunningInstancesCount` and `Org.ServicesCount`; for the empty report the
text is that sentence with six zeros. -/
theorem String_summary_line (report : Report)
    (h : ∀ org ∈ report.Orgs, org.MemoryQuota ≠ 0) :
    (∃ body : String, endsLine body ∧
      Report.String' report = Except.ok
        (body ++
          ("You have deployed "
            ++ strconvItoa (report.Orgs.map (fun org => org.AppsCount)).sum
            ++ " apps across " ++ strconvItoa (report.Orgs.length : Int)
            ++ " org(s), with a total of "
            ++ strconvItoa (report.Orgs.map (fun org => org.InstancesCount)).sum
            ++ " app instances configured. You are currently running "
            ++ strconvItoa (report.Orgs.map (fun org => org.RunningAppsCount)).sum
            ++ " apps with "
            ++ strconvItoa (report.Orgs.map (fun org => org.RunningInstancesCount)).sum
            ++ " app instances and using "
            ++ strconvItoa (report.Orgs.map (fun org => org.ServicesCount)).sum
            ++ " service instances of type Service Suite.\n"))) ∧
    Report.String' ⟨[]⟩ = Except.ok
      "You have deployed 0 apps across 0 org(s), with a total of 0 app instances configured. You are currently running 0 apps with 0 app instances and using 0 service instances of type Service Suite.\n" := by
  refine ⟨⟨concatStrings (report.Orgs.map orgParagraph), ?_, ?_⟩, by rfl⟩
  · apply endsLine_concat
    intro s hs
    obtain ⟨org, _, rfl⟩ := List.mem_map.1 hs
    exact endsLine_orgParagraph org
  · exact String_of_ok report (fun org horg hq => absurd hq (h org horg))

set_option maxRecDepth 100000 in
/-- Witness of C15 on `plainOrg`, an org with two spaces and quota 1000: one
deployed and running app, 5 configured and 4 running app instances (3 of each
for the dataflow binding), one other service instance. -/
theorem String_summary_line_witness :
    (∀ org ∈ [plainOrg], org.MemoryQuota ≠ 0) ∧
    ∃ body : String, endsLine body ∧
      Report.String' ⟨[plainOrg]⟩ = Except.ok
        (body ++ "You have deployed 1 apps across 1 org(s), with a total of 5 app instances configured. You are currently running 1 apps with 4 app instances and using 1 service instances of type Service Suite.\n") :=
  ⟨by decide,
   (String_summary_line ⟨[plainOrg]⟩ (by decide)).1⟩

/-! ## The tabular exporter with its store -/

theorem rangeLoop_append {ε σ α : Type} (body : σ → α → Except ε σ) (xs ys : List α)
    (st : σ) :
    rangeLoop body st (xs ++ ys)
      = (match rangeLoop body st xs with
         | Except.error e => Except.error e
         | Except.ok st1 => rangeLoop body st1 ys) := by
  induction xs generalizing st with
  | nil => simp [rangeLoop]
  | cons x rest ih =>
    simp only [List.cons_append, rangeLoop]
    cases body st x with
    | error e => rfl
    | ok st1 => exact ih st1

theorem rangeLoop_map {ε σ α β : Type} (body : σ → β → Except ε σ) (g : α → β)
    (xs : List α) (st : σ) :
    rangeLoop body st (xs.map g) = rangeLoop (fun st x => body st (g x)) st xs := by
  induction xs generalizing st with
  | nil => simp [rangeLoop]
  | cons x rest ih =>
    simp only [List.map_cons, rangeLoop]
    cases body st (g x) with
    | error e => rfl
    | ok st1 => exact ih st1

theorem csvExec_inner (apiep today dbDate : String) (org : Org) (spaces : Spaces)
    (st : CSVRun) :
    rangeLoop (Report.csvExecStep apiep today dbDate org) st spaces
      = rangeLoop (rowStep dbDate) st
          (if excludedOrgName org.Name then []
           else spaces.map (Report.csvRow apiep today org)) := by
  cases h : excludedOrgName org.Name
  · simp only [Bool.false_eq_true, if_false, rangeLoop_map]
    congr 1
    funext st1 sp
    simp [Report.csvExecStep, excluded_test, h, rowStep]
  · simp only [if_true, rangeLoop]
    induction spaces with
    | nil => rfl
    | cons sp rest ih =>
      simp only [rangeLoop, Report.csvExecStep, excluded_test, h, if_true, ih]

theorem csvExec_outer (apiep today dbDate : String) (orgs : Orgs) (st : CSVRun) :
    rangeLoop
        (fun st org => rangeLoop (Report.csvExecStep apiep today dbDate org) st org.Spaces)
        st orgs
      = rangeLoop (rowStep dbDate) st
          (orgs.flatMap (fun org =>
            if excludedOrgName org.Name then []
            else org.Spaces.map (Report.csvRow apiep today org))) := by
  induction orgs generalizing st with
  | nil => simp [rangeLoop]
  | cons org rest ih =>
    rw [List.flatMap_cons, rangeLoop_append, ← csvExec_inner]
    simp only [rangeLoop]
    cases rangeLoop (Report.csvExecStep apiep today dbDate org) st org.Spaces with
    | error e => rfl
    | ok st1 => exact ih st1

theorem CSV_eq_rowLoop (report : Report) (apiep today dbDate : String) (db : Store) :
    Report.CSV report apiep today dbDate db
      = (match rangeLoop (rowStep dbDate) { rows := [Report.csvHeaders], tx := db }
            (Report.dataRows report apiep today) with
         | Except.error e => Except.error e
         | Except.ok st => Except.ok (Report.csvText st.rows, st.tx)) := by
  rw [Report.CSV, csvExec_outer, pairs_rows]
  rfl

theorem insert_of_mem (tx : Store) (dbDate : String) (row : List String)
    (h : keyOf (recordOf dbDate row) ∈ tx.map keyOf) :
    Store.insert tx dbDate (row.take 1 ++ row.drop 2) = Except.error uniqueFailed := by
  have hany : tx.any (fun r => r.take 4 == (recordOf dbDate row).take 4) = true := by
    rw [List.any_eq_true]
    obtain ⟨r, hr, hk⟩ := List.mem_map.1 h
    exact ⟨r, hr, by simpa [keyOf] using hk⟩
  simp only [Store.insert, recordOf] at hany ⊢
  rw [if_pos hany]
  rfl

theorem insert_of_not_mem (tx : Store) (dbDate : String) (row : List String)
    (h : keyOf (recordOf dbDate row) ∉ tx.map keyOf) :
    Store.insert tx dbDate (row.take 1 ++ row.drop 2)
      = Except.ok (tx ++ [recordOf dbDate row]) := by
  have hany : ¬ tx.any (fun r => r.take 4 == (recordOf dbDate row).take 4) = true := by
    rw [List.any_eq_true]
    rintro ⟨r, hr, hk⟩
    exact h (List.mem_map.2 ⟨r, hr, by simpa [keyOf] using hk⟩)
  simp only [Store.insert, recordOf] at hany ⊢
  rw [if_neg hany]

theorem rowLoop_of_ok (dbDate : String) (rows : List (List String)) (st st1 : CSVRun)
    (h : rangeLoop (rowStep dbDate) st rows = Except.ok st1) :
    st1.rows = st.rows ++ rows ∧ st1.tx = st.tx ++ rows.map (recordOf dbDate) ∧
      ((st.tx.map keyOf).Nodup → (st1.tx.map keyOf).Nodup) := by
  induction rows generalizing st with
  | nil =>
    simp only [rangeLoop, Except.ok.injEq] at h
    subst h
    simp
  | cons row rest ih =>
    by_cases hk : keyOf (recordOf dbDate row) ∈ st.tx.map keyOf
    · simp [rangeLoop, rowStep, insert_of_mem st.tx dbDate row hk] at h
    · simp only [rangeLoop, rowStep, insert_of_not_mem st.tx dbDate row hk] at h
      obtain ⟨h1, h2, h3⟩ := ih _ h
      refine ⟨by simp [h1], by simp [h2], ?_⟩
      intro hnd
      apply h3
      simp only [List.map_append, List.map_cons, List.map_nil]
      rw [List.nodup_append]
      refine ⟨hnd, List.nodup_singleton _, ?_⟩
      intro k hk1 hk2
      rw [List.mem_singleton] at hk2
      exact hk (hk2 ▸ hk1)

theorem rowLoop_of_dup (dbDate : String) (row : List String) (rest : List (List String))
    (st : CSVRun) (h : keyOf (recordOf dbDate row) ∈ st.tx.map keyOf) :
    rangeLoop (rowStep dbDate) st (row :: rest) = Except.error uniqueFailed := by
  simp only [rangeLoop, rowStep, insert_of_mem st.tx dbDate row h]

theorem rowLoop_of_fresh (dbDate : String) (rows : List (List String)) (st : CSVRun)
    (h : (st.tx.map keyOf ++ rows.map (fun row => keyOf (recordOf dbDate row))).Nodup)
    (hdb : (st.tx.map keyOf).Nodup) :
    rangeLoop (rowStep dbDate) st rows
      = Except.ok { rows := st.rows ++ rows, tx := st.tx ++ rows.map (recordOf dbDate) } := by
  induction rows generalizing st with
  | nil => simp [rangeLoop]
  | cons row rest ih =>
    have hk : keyOf (recordOf dbDate row) ∉ st.tx.map keyOf := by
      intro hmem
      rw [List.nodup_append] at h
      exact h.2.2 hmem (List.mem_cons_self _ _)
    have hnd : ((st.tx ++ [recordOf dbDate row]).map keyOf).Nodup := by
      simp only [List.map_append, List.map_cons, List.map_nil]
      rw [List.nodup_append]
      refine ⟨hdb, List.nodup_singleton _, ?_⟩
      intro k hk1 hk2
      rw [List.mem_singleton] at hk2
      exact hk (hk2 ▸ hk1)
    have h2 : (((st.tx ++ [recordOf dbDate row]).map keyOf)
        ++ rest.map (fun row => keyOf (recordOf dbDate row))).Nodup := by
      simpa [List.append_assoc] using h
    simp only [rangeLoop, rowStep, insert_of_not_mem st.tx dbDate row hk]
    rw [ih _ h2 hnd]
    simp

theorem csvText_eq (rows : List (List String)) :
    Report.csvText rows = renderRows rows := by
  have h : ∀ (acc : String),
      rows.foldl (fun csv row => (csv ++ stringsJoin row ", ") ++ "\n") acc
        = acc ++ renderRows rows := by
    induction rows with
    | nil => intro acc; simp [renderRows, concatStrings]
    | cons row rest ih =>
      intro acc
      rw [List.foldl_cons, ih]
      simp only [renderRows, List.map_cons, concatStrings, String.append_assoc]
  rw [Report.csvText, h, String.empty_append]

theorem dataRows_eq_tail (report : Report) (apiep today : String) :
    Report.csvRows report apiep today
      = Report.csvHeaders :: Report.dataRows report apiep today :=
  csvRows_eq report apiep today

theorem CSV_of_ok (report : Report) (apiep today dbDate : String) (db : Store)
    (text : String) (db1 : Store)
    (h : Report.CSV report apiep today dbDate db = Except.ok (text, db1)) :
    text = renderRows (Report.csvRows report apiep today) ∧
      db1 = db ++ Report.newRecords report apiep today dbDate ∧
      ((db.map keyOf).Nodup → (db1.map keyOf).Nodup) := by
  rw [CSV_eq_rowLoop] at h
  cases hl : rangeLoop (rowStep dbDate) { rows := [Report.csvHeaders], tx := db }
      (Report.dataRows report apiep today) with
  | error e => simp [hl] at h
  | ok st =>
    simp only [hl, Except.ok.injEq, Prod.mk.injEq] at h
    obtain ⟨h1, h2, h3⟩ := rowLoop_of_ok _ _ _ _ hl
    refine ⟨?_, ?_, ?_⟩
    · rw [← h.1, csvText_eq, h1, dataRows_eq_tail]
      rfl
    · rw [← h.2, h2]
      rfl
    · rw [← h.2]
      exact h3

theorem CSV_of_fresh (report : Report) (apiep today dbDate : String) (db : Store)
    (h : (db.map keyOf ++ (Report.newRecords report apiep today dbDate).map keyOf).Nodup) :
    Report.CSV report apiep today dbDate db
      = Except.ok (renderRows (Report.csvRows report apiep today),
          db ++ Report.newRecords report apiep today dbDate) := by
  have hdb : (db.map keyOf).Nodup := (List.nodup_append.1 h).1
  have h2 : (db.map keyOf ++ (Report.dataRows report apiep today).map
      (fun row => keyOf (recordOf dbDate row))).Nodup := by
    simpa [Report.newRecords, List.map_map, Function.comp] using h
  rw [CSV_eq_rowLoop, rowLoop_of_fresh dbDate _ { rows := [Report.csvHeaders], tx := db } h2 hdb]
  simp only [csvText_eq, dataRows_eq_tail]
  rfl

/-- C16: the string returned by `Report.CSV` is the rendering of its row-set,
the fixed sixteen-column header row first: the cells of each row joined by
", ", each row on its own line and every line, the last included, ended by a
newline; and `Report.CSV` does return it whenever the keys of the new records
are distinct from one another and from the keys in the store. -/
theorem CSV_text_rendering (report : Report) (apiep today dbDate : String) (db : Store) :
    (∀ (text : String) (db1 : Store),
      Report.CSV report apiep today dbDate db = Except.ok (text, db1) →
      text = concatStrings ((Report.csvRows report apiep today).map
        (fun row => String.intercalate ", " row ++ "\n"))) ∧
    ((db.map keyOf ++ (Report.newRecords report apiep today dbDate).map keyOf).Nodup →
      ∃ db1 : Store, Report.CSV report apiep today dbDate db = Except.ok
        (concatStrings ((Report.csvRows report apiep today).map
          (fun row => String.intercalate ", " row ++ "\n")), db1)) ∧
    (Report.csvRows report apiep today).head?
      = some ["Env", "ReportDate", "OrgName", "SpaceName", "SpaceMemoryUsed",
          "OrgMemoryQuota", "AppsDeployed", "AppsRunning", "AppInstancesConfigured",
          "AppInstancesRunning", "TotalServiceInstancesDeployed",
          "RabbitMQServiceInstanceDeployed", "RedisServiceInstanceDeployed",
          "MySQLServiceInstanceDeployed", "SpringCloudServiceInstanceDeployed",
          "SpringCloudDataFlowServerInstanceDeployed"] := by
  refine ⟨?_, ?_, ?_⟩
  · intro text db1 h
    exact (CSV_of_ok report apiep today dbDate db text db1 h).1
  · intro h
    exact ⟨_, CSV_of_fresh report apiep today dbDate db h⟩
  · rw [csvRows_eq]
    rfl

set_option maxRecDepth 100000 in
/-- Witness of C16: the export of `acmeReport` on the empty store returns the
header line and one data line. -/
theorem CSV_text_rendering_witness :
    Report.CSV acmeReport "env" "2020-01-01" "2020-01-01" []
      = Except.ok
        ("Env, ReportDate, OrgName, SpaceName, SpaceMemoryUsed, OrgMemoryQuota, AppsDeployed, AppsRunning, AppInstancesConfigured, AppInstancesRunning, TotalServiceInstancesDeployed, RabbitMQServiceInstanceDeployed, RedisServiceInstanceDeployed, MySQLServiceInstanceDeployed, SpringCloudServiceInstanceDeployed, SpringCloudDataFlowServerInstanceDeployed\n"
          ++ "env, 2020-01-01, acme, dev, 512, 1000, 1, 1, 2, 1, 0, 0, 0, 0, 0, 0\n",
         acmeStore) ∧
    ("Env, ReportDate, OrgName, SpaceName, SpaceMemoryUsed, OrgMemoryQuota, AppsDeployed, AppsRunning, AppInstancesConfigured, AppInstancesRunning, TotalServiceInstancesDeployed, RabbitMQServiceInstanceDeployed, RedisServiceInstanceDeployed, MySQLServiceInstanceDeployed, SpringCloudServiceInstanceDeployed, SpringCloudDataFlowServerInstanceDeployed\n"
          ++ "env, 2020-01-01, acme, dev, 512, 1000, 1, 1, 2, 1, 0, 0, 0, 0, 0, 0\n")
      = concatStrings ((Report.csvRows acmeReport "env" "2020-01-01").map
          (fun row => String.intercalate ", " row ++ "\n")) ∧
    (∃ db1 : Store, Report.CSV acmeReport "env" "2020-01-01" "2020-01-01" [] = Except.ok
        (concatStrings ((Report.csvRows acmeReport "env" "2020-01-01").map
          (fun row => String.intercalate ", " row ++ "\n")), db1)) :=
  ⟨by rfl,
   (CSV_text_rendering acmeReport "env" "2020-01-01" "2020-01-01" []).1 _ acmeStore (by rfl),
   (CSV_text_rendering acmeReport "env" "2020-01-01" "2020-01-01" []).2.1 (by decide)⟩

theorem CSV_rerun_of_rows (report : Report) (apiep today dbDate : String) (db : Store)
    (hne : Report.dataRows report apiep today ≠ []) :
    Report.CSV report apiep today dbDate
        (db ++ Report.newRecords report apiep today dbDate)
      = Except.error uniqueFailed := by
  rw [CSV_eq_rowLoop]
  cases hrows : Report.dataRows report apiep today with
  | nil => exact absurd hrows hne
  | cons row rest =>
    have hmem : keyOf (recordOf dbDate row)
        ∈ (db ++ Report.newRecords report apiep today dbDate).map keyOf := by
      apply List.mem_map_of_mem
      apply List.mem_append_right
      simp [Report.newRecords, hrows]
    rw [rowLoop_of_dup dbDate row rest _ hmem]

theorem CSV_rerun_of_no_rows (report : Report) (apiep today dbDate : String) (db : Store)
    (h : Report.dataRows report apiep today = []) :
    Report.CSV report apiep today dbDate db
      = Except.ok (renderRows (Report.csvRows report apiep today), db) := by
  rw [CSV_eq_rowLoop, h]
  simp only [rangeLoop, csvText_eq, dataRows_eq_tail, h]

set_option maxRecDepth 100000 in
/-- C17 as stated fails: a first export of `acmeReport` on the empty store
returns and leaves the store `acmeStore`; the second export of the same report
with the same environment and date does not complete, its first insert
violating the unique index. -/
theorem CSV_second_run_fatal :
    (∃ text : String,
      Report.CSV acmeReport "env" "2020-01-01" "2020-01-01" []
        = Except.ok (text, acmeStore)) ∧
    Report.CSV acmeReport "env" "2020-01-01" "2020-01-01" acmeStore
      = Except.error "UNIQUE constraint failed: trueupreport.api_ep, trueupreport.report_date, trueupreport.org_name, trueupreport.space_name" :=
  ⟨⟨_, by rfl⟩, by rfl⟩

/-- C17, amended: after a first export that returned, the store holds its
former records followed by one record per data row, and keeps its keys distinct
if they were; a second export of the same report with the same environment and
date then ends in `log.Fatal` on its first insert when the report has a data
row, and returns the same text when it has none; either way the store holds
exactly the records it held after the first export. -/
theorem CSV_second_run (report : Report) (apiep today dbDate : String)
    (db db1 : Store) (text : String)
    (h : Report.CSV report apiep today dbDate db = Except.ok (text, db1)) :
    db1 = db ++ Report.newRecords report apiep today dbDate ∧
    ((db.map keyOf).Nodup → (db1.map keyOf).Nodup) ∧
    (report.pairs.filter (fun p => !excludedOrgName p.1.Name) ≠ [] →
      Report.CSV report apiep today dbDate db1 = Except.error uniqueFailed) ∧
    (report.pairs.filter (fun p => !excludedOrgName p.1.Name) = [] →
      Report.CSV report apiep today dbDate db1 = Except.ok (text, db1)) ∧
    Report.storeAfterCSV report apiep today dbDate db1 = db1 := by
  obtain ⟨h1, h2, h3⟩ := CSV_of_ok report apiep today dbDate db text db1 h
  have hrows : Report.dataRows report apiep today = []
      ↔ report.pairs.filter (fun p => !excludedOrgName p.1.Name) = [] := by
    simp [Report.dataRows]
  have herr : report.pairs.filter (fun p => !excludedOrgName p.1.Name) ≠ [] →
      Report.CSV report apiep today dbDate db1 = Except.error uniqueFailed := by
    intro hne
    rw [h2]
    exact CSV_rerun_of_rows report apiep today dbDate db (fun hd => hne (hrows.1 hd))
  have hok : report.pairs.filter (fun p => !excludedOrgName p.1.Name) = [] →
      Report.CSV report apiep today dbDate db1 = Except.ok (text, db1) := by
    intro he
    rw [CSV_rerun_of_no_rows report apiep today dbDate db1 (hrows.2 he), h1]
  refine ⟨h2, h3, herr, hok, ?_⟩
  by_cases hp : report.pairs.filter (fun p => !excludedOrgName p.1.Name) = []
  · simp only [Report.storeAfterCSV, hok hp]
  · simp only [Report.storeAfterCSV, herr hp]

set_option maxRecDepth 100000 in
/-- Witness of the amended C17 on `acmeReport`: the first export leaves
`acmeStore`, the second one is fatal and the store is still `acmeStore`. -/
theorem CSV_second_run_witness :
    (∃ text : String,
      Report.CSV acmeReport "env" "2020-01-01" "2020-01-01" []
        = Except.ok (text, acmeStore)) ∧
    Report.CSV acmeReport "env" "2020-01-01" "2020-01-01" acmeStore
      = Except.error uniqueFailed ∧
    Report.storeAfterCSV acmeReport "env" "2020-01-01" "2020-01-01" acmeStore
      = acmeStore ∧
    (acmeStore.map keyOf).Nodup :=
  ⟨⟨_, by rfl⟩,
   (CSV_second_run acmeReport "env" "2020-01-01" "2020-01-01" [] acmeStore _ (by rfl)).2.2.1
      (by decide),
   (CSV_second_run acmeReport "env" "2020-01-01" "2020-01-01" [] acmeStore _ (by rfl)).2.2.2.2,
   (CSV_second_run acmeReport "env" "2020-01-01" "2020-01-01" [] acmeStore _ (by rfl)).2.1
      (by decide)⟩

end Models
